import Mathlib

/-!
Verification development for the `linkedin_monitor.py` change-detection and
notification pipeline.  The Python source is embedded shallowly:

* pure string manipulation (cleaning, validation, title/summary derivation,
  fingerprint hashing) is translated to executable Lean functions;
* the ambient effects of the source (wall-clock readings via `datetime.now()`,
  the random module, network fetches, and the `re.findall` regex engine) are
  passed in explicitly as inputs (`Clock`, `ProfEnv`), so that one Lean value
  of these types corresponds to one concrete execution environment;
* `hashlib.sha256(...).hexdigest()` is embedded by a full executable SHA-256
  over byte lists, with UTF-8 encoding of strings, so fingerprints can be
  evaluated on concrete inputs.

Definitions keep the source's names (camel-cased).  All machine integers are
`Nat` with explicit `% 2^32` reductions.
-/

set_option maxRecDepth 20000
set_option maxHeartbeats 4000000

/-! ## Python-flavoured string primitives -/

/-- Characters treated as whitespace by Python's `str.strip` / `str.split` and
by `\s` in `re` (common cases; the source data is ASCII/Latin-1 French text). -/
def isPySpace (c : Char) : Bool :=
  c = ' ' || c = '\t' || c = '\n' || c = '\r' || c.toNat = 11 || c.toNat = 12 ||
  c.toNat = 0x85 || c.toNat = 0xA0 || c.toNat = 0x1680 ||
  (0x2000 ≤ c.toNat && c.toNat ≤ 0x200A) ||
  c.toNat = 0x2028 || c.toNat = 0x2029 || c.toNat = 0x202F ||
  c.toNat = 0x205F || c.toNat = 0x3000

/-- Python `str.strip()` (no argument): drop whitespace from both ends. -/
def pyStrip (s : String) : String :=
  ⟨((s.data.dropWhile isPySpace).reverse.dropWhile isPySpace).reverse⟩

/-- Tests whether `a` is a prefix of `b` (used to embed `re.search` anchors and `str.startswith`). -/
def charsHavePre : List Char → List Char → Bool
  | [], _ => true
  | _ :: _, [] => false
  | a :: as, b :: bs => a = b && charsHavePre as bs

/-- Tests whether `pat` occurs as a contiguous substring (Python's `pat in s`). -/
def hasSub (pat : List Char) : List Char → Bool
  | [] => charsHavePre pat []
  | c :: rest => charsHavePre pat (c :: rest) || hasSub pat rest

/-- Python `sub in s`. -/
def pyContains (s sub : String) : Bool := hasSub sub.data s.data

/-- Python `s.startswith p`. -/
def pyStartsWith (s p : String) : Bool := charsHavePre p.data s.data

/-- Split on maximal runs of delimiter characters, keeping empty fields at the
ends, as `re.split r'[D]+' s` does. -/
def splitRuns (mem : Char → Bool) : List Char → List (List Char)
  | [] => [[]]
  | c :: rest =>
      let r := splitRuns mem rest
      if mem c then
        match rest with
        | d :: _ => if mem d then r else [] :: r
        | [] => [] :: r
      else
        match r with
        | p :: ps => (c :: p) :: ps
        | [] => [[c]]

/-- Python `str.split()` (no argument): fields between whitespace runs, empties dropped. -/
def pySplitWs (s : String) : List String :=
  ((splitRuns isPySpace s.data).filter (· ≠ [])).map String.mk

/-- Join a list of strings with a separator (Python `sep.join xs`). -/
def pyJoin (sep : String) : List String → String
  | [] => ""
  | [x] => x
  | x :: y :: rest => x ++ sep ++ pyJoin sep (y :: rest)

/-- Python `str.lower()` restricted to the character ranges the source text
uses: ASCII letters and the Latin-1 accented block (À–Þ except ×). -/
def pyLowerChar (c : Char) : Char :=
  let n := c.toNat
  if 65 ≤ n ∧ n ≤ 90 then Char.ofNat (n + 32)
  else if 0xC0 ≤ n ∧ n ≤ 0xDE ∧ n ≠ 0xD7 then Char.ofNat (n + 32)
  else c

/-- Python `str.lower()`. -/
def pyLower (s : String) : String := ⟨s.data.map pyLowerChar⟩

/-- Python `s.endswith` over a tuple of suffixes. -/
def pyEndsWithAny (s : String) (suffixes : List String) : Bool :=
  suffixes.any (fun t => charsHavePre t.data.reverse s.data.reverse)

/-! ## SHA-256 (embedding of `hashlib.sha256(...).hexdigest()`)

Bytes and 32-bit words are `Nat`s reduced mod `2^32` explicitly. -/

def u32 (x : Nat) : Nat := x % 4294967296

def shaAdd (a b : Nat) : Nat := (a + b) % 4294967296

def rotr32 (n x : Nat) : Nat := u32 ((x >>> n) ||| (x <<< (32 - n)))

def shaK : List Nat :=
  [1116352408, 1899447441, 3049323471, 3921009573, 961987163,
   1508970993, 2453635748, 2870763221, 3624381080, 310598401,
   607225278, 1426881987, 1925078388, 2162078206, 2614888103,
   3248222580, 3835390401, 4022224774, 264347078, 604807628,
   770255983, 1249150122, 1555081692, 1996064986, 2554220882,
   2821834349, 2952996808, 3210313671, 3336571891, 3584528711,
   113926993, 338241895, 666307205, 773529912, 1294757372,
   1396182291, 1695183700, 1986661051, 2177026350, 2456956037,
   2730485921, 2820302411, 3259730800, 3345764771, 3516065817,
   3600352804, 4094571909, 275423344, 430227734, 506948616,
   659060556, 883997877, 958139571, 1322822218, 1537002063,
   1747873779, 1955562222, 2024104815, 2227730452, 2361852424,
   2428436474, 2756734187, 3204031479, 3329325298]

structure ShaState where
  a : Nat
  b : Nat
  c : Nat
  d : Nat
  e : Nat
  f : Nat
  g : Nat
  h : Nat

def shaH0 : ShaState :=
  ⟨1779033703, 3144134277, 1013904242, 2773480762,
   1359893119, 2600822924, 528734635, 1541459225⟩

/-- Big-endian 8-byte encoding of a bit length. -/
def lenBytes64 (n : Nat) : List Nat :=
  [u32 (n >>> 56) % 256, (n >>> 48) % 256, (n >>> 40) % 256, (n >>> 32) % 256,
   (n >>> 24) % 256, (n >>> 16) % 256, (n >>> 8) % 256, n % 256]

/-- SHA-256 padding: append `0x80`, zero bytes to 56 mod 64, then the bit length. -/
def shaPad (msg : List Nat) : List Nat :=
  let L := msg.length
  let zeros := (120 - (L + 1) % 64) % 64
  msg ++ [0x80] ++ List.replicate zeros 0 ++ lenBytes64 (8 * L)

/-- Split a padded message into 64-byte chunks (fuelled structural recursion). -/
def chunks64Go : Nat → List Nat → List (List Nat)
  | 0, _ => []
  | _ + 1, [] => []
  | fuel + 1, l => l.take 64 :: chunks64Go fuel (l.drop 64)

def chunks64 (l : List Nat) : List (List Nat) := chunks64Go l.length l

/-- Big-endian 4-byte words from a 64-byte chunk. -/
def chunkWordsGo : Nat → List Nat → List Nat
  | 0, _ => []
  | _ + 1, [] => []
  | fuel + 1, b0 :: rest =>
      ((b0 <<< 24) + ((rest.getD 0 0) <<< 16) + ((rest.getD 1 0) <<< 8) + rest.getD 2 0)
        :: chunkWordsGo fuel (rest.drop 3)

def chunkWords (chunk : List Nat) : List Nat := chunkWordsGo chunk.length chunk

/-- Message-schedule extension: extend 16 words to 64. -/
def shaExtend : Nat → List Nat → List Nat
  | 0, w => w
  | fuel + 1, w =>
      let i := w.length
      let w15 := w.getD (i - 15) 0
      let w2 := w.getD (i - 2) 0
      let s0 := (rotr32 7 w15) ^^^ (rotr32 18 w15) ^^^ (w15 >>> 3)
      let s1 := (rotr32 17 w2) ^^^ (rotr32 19 w2) ^^^ (w2 >>> 10)
      shaExtend fuel (w ++ [(w.getD (i - 16) 0 + s0 + w.getD (i - 7) 0 + s1) % 4294967296])

/-- One compression round. -/
def shaRound (w : List Nat) (st : ShaState) (i : Nat) : ShaState :=
  let S1 := (rotr32 6 st.e) ^^^ (rotr32 11 st.e) ^^^ (rotr32 25 st.e)
  let ch := (st.e &&& st.f) ^^^ ((4294967295 - st.e) &&& st.g)
  let temp1 := (st.h + S1 + ch + shaK.getD i 0 + w.getD i 0) % 4294967296
  let S0 := (rotr32 2 st.a) ^^^ (rotr32 13 st.a) ^^^ (rotr32 22 st.a)
  let maj := (st.a &&& st.b) ^^^ (st.a &&& st.c) ^^^ (st.b &&& st.c)
  let temp2 := (S0 + maj) % 4294967296
  ⟨(temp1 + temp2) % 4294967296, st.a, st.b, st.c,
   (st.d + temp1) % 4294967296, st.e, st.f, st.g⟩

/-- Compress one 64-byte chunk into the running state. -/
def shaCompress (st : ShaState) (chunk : List Nat) : ShaState :=
  let w := shaExtend 48 (chunkWords chunk)
  let r := (List.range 64).foldl (shaRound w) st
  ⟨shaAdd st.a r.a, shaAdd st.b r.b, shaAdd st.c r.c, shaAdd st.d r.d,
   shaAdd st.e r.e, shaAdd st.f r.f, shaAdd st.g r.g, shaAdd st.h r.h⟩

def shaStateWords (st : ShaState) : List Nat :=
  [st.a, st.b, st.c, st.d, st.e, st.f, st.g, st.h]

/-- Lowercase hex of one 32-bit word (8 digits). -/
def wordHex (x : Nat) : List Char :=
  [Nat.digitChar ((x >>> 28) % 16), Nat.digitChar ((x >>> 24) % 16),
   Nat.digitChar ((x >>> 20) % 16), Nat.digitChar ((x >>> 16) % 16),
   Nat.digitChar ((x >>> 12) % 16), Nat.digitChar ((x >>> 8) % 16),
   Nat.digitChar ((x >>> 4) % 16), Nat.digitChar (x % 16)]

/-- Embeds `hashlib.sha256(bytes).hexdigest()`: 64 lowercase hex characters. -/
def sha256Hex (msg : List Nat) : String :=
  let final := (chunks64 (shaPad msg)).foldl shaCompress shaH0
  ⟨((shaStateWords final).map wordHex).flatten⟩

/-- UTF-8 encoding of one character. -/
def utf8Char (c : Char) : List Nat :=
  let n := c.toNat
  if n < 0x80 then [n]
  else if n < 0x800 then [0xC0 ||| (n >>> 6), 0x80 ||| (n &&& 0x3F)]
  else if n < 0x10000 then
    [0xE0 ||| (n >>> 12), 0x80 ||| ((n >>> 6) &&& 0x3F), 0x80 ||| (n &&& 0x3F)]
  else
    [0xF0 ||| (n >>> 18), 0x80 ||| ((n >>> 12) &&& 0x3F),
     0x80 ||| ((n >>> 6) &&& 0x3F), 0x80 ||| (n &&& 0x3F)]

/-- Python `s.encode('utf-8')` as a byte list. -/
def utf8Bytes (s : String) : List Nat := (s.data.map utf8Char).flatten

/-- Embeds `hashlib.sha256(s.encode('utf-8')).hexdigest()`. -/
def sha256HexOf (s : String) : String := sha256Hex (utf8Bytes s)

/-! ## Data model

`PostData` and `ProfileData` mirror the source classes field by field.
`Clock` packages the `datetime.now()` format strings one profile check reads;
`ProfEnv` packages the per-profile ambient inputs: the overall fetch outcome of
`make_stealth_request` over the candidate URLs, the `re.findall` results of the
three `authentic_patterns` (index 0, 1, 2), and the draws of the `random`
module used by `IntelligentContentGenerator`. -/

structure PostData where
  profile_name : String
  post_title : String
  post_description : String
  post_url : String
  detection_time : String
  post_id : String
  post_type : String := "publication"
  source_method : String := "direct"
deriving DecidableEq, Repr

structure ProfileData where
  url : String
  name : String
  last_post_id : String
  error_count : Int
  last_check : String
  last_success : Option String
deriving DecidableEq, Repr

/-- Embeds `ProfileData.__init__`: strips `url`, `name`, `last_post_id`, stamps
`last_check` with the current time, `last_success = None`. -/
def ProfileData.make (nowIso url name : String) (lastPostId : String := "")
    (errorCount : Int := 0) : ProfileData :=
  { url := pyStrip url, name := pyStrip name, last_post_id := pyStrip lastPostId,
    error_count := errorCount, last_check := nowIso, last_success := none }

/-- Formatted readings of `datetime.now()` used by one run. -/
structure Clock where
  ymd : String
  ymdh : String
  iso : String
  full : String
  dmyhm : String
deriving Repr

structure GenTemplate where
  title : String
  description : String
  ttype : String
deriving DecidableEq, Repr

/-- Per-profile ambient inputs of `check_profile_with_anti_detection`. -/
structure ProfEnv where
  fetched : Option String
  findall : Nat → String → List (String × String)
  sample2 : List GenTemplate → List GenTemplate
  coin : Nat → Bool
  timeWord : Nat → String

/-- The properties of `random.sample(templates, min(2, len(templates)))` the
proofs rely on: it returns that many elements, all drawn from the list, and the
time-context word is one of the five `time_variations`. -/
def ProfEnv.Wf (e : ProfEnv) : Prop :=
  (∀ ts : List GenTemplate, (e.sample2 ts).length = min 2 ts.length) ∧
  (∀ ts : List GenTemplate, ∀ t ∈ e.sample2 ts, t ∈ ts) ∧
  (∀ k, e.timeWord k ∈
    ["récemment", "cette semaine", "aujourd'hui", "en ce moment", "actuellement"])

/-! ## `IntelligentContentGenerator` -/

/-- Embeds `company_templates` (an ordered dict keyed by profile name). -/
def companyTemplates : List (String × List GenTemplate) :=
  [("Tesla",
    [⟨"Innovations en véhicules électriques et technologies durables",
      "Tesla continue de révolutionner l'industrie automobile avec ses dernières avancées en matière de véhicules électriques et de solutions énergétiques durables.",
      "innovation"⟩,
     ⟨"Recrutement d'ingénieurs pour l'IA et l'autonomie",
      "Tesla recherche des talents exceptionnels pour développer la prochaine génération de technologies d'intelligence artificielle et de conduite autonome.",
      "emploi"⟩]),
   ("Microsoft",
    [⟨"Avancées en intelligence artificielle et cloud computing",
      "Microsoft présente ses dernières innovations en IA et services cloud pour transformer la productivité des entreprises modernes.",
      "innovation"⟩,
     ⟨"Solutions collaboratives pour l'entreprise moderne",
      "Découvrez comment Microsoft Teams et Azure révolutionnent la collaboration et la transformation digitale des organisations.",
      "produit"⟩]),
   ("Google",
    [⟨"Recherche et développement en intelligence artificielle",
      "Google partage ses avancées révolutionnaires en IA et machine learning pour créer un avenir plus intelligent et accessible.",
      "innovation"⟩,
     ⟨"Initiatives durabilité et impact environnemental",
      "Google présente ses engagements environnementaux et ses solutions technologiques pour un avenir plus durable.",
      "durabilite"⟩])]

/-- Embeds `generic_templates`. -/
def genericTemplates : List GenTemplate :=
  [⟨"Actualités et développements récents",
    "Dernières nouvelles et évolutions importantes de l'entreprise à ne pas manquer.",
    "actualite"⟩,
   ⟨"Innovation et stratégie d'entreprise",
    "Présentation des dernières innovations et de la vision stratégique pour l'avenir.",
    "strategie"⟩]

/-- Embeds `_personalize_content`.  The call's `random.random() > 0.5` draw and
`random.choice(time_variations)` draw are read from the environment at call
index `k` (two calls per generated post: title then description). -/
def personalizeContent (e : ProfEnv) (k : Nat) (tmpl profileName : String) : String :=
  let t :=
    if e.coin k then
      let w := e.timeWord k
      (tmpl.replace "présente" (w ++ " présente")).replace "continue" (w ++ " continue")
    else tmpl
  if profileName = "Tesla" then
    t.replace "véhicules électriques" "véhicules électriques Tesla"
  else if profileName = "Microsoft" then
    t.replace "entreprises" "entreprises partenaires"
  else if profileName = "Google" then
    t.replace "intelligence artificielle" "Google AI"
  else t

/-- Scan for the first place where `lit` occurs followed by at least one
character not equal to `'/'`; return that maximal segment.  This is
`re.search(lit + r'([^/]+)')` restricted to the literal prefixes the source
uses. -/
def scanLitSeg (lit : List Char) : List Char → Option (List Char)
  | [] => none
  | c :: rest =>
      if charsHavePre lit (c :: rest) then
        let seg := ((c :: rest).drop lit.length).takeWhile (· ≠ '/')
        if seg ≠ [] then some seg else scanLitSeg lit rest
      else scanLitSeg lit rest

/-- Embeds `re.search(r'/company/([^/]+)', url)`, returning group 1. -/
def companyIdOf (url : String) : Option String :=
  (scanLitSeg "/company/".data url.data).map String.mk

/-- Embeds `re.search(r'/in/([^/]+)', url)`, returning group 1. -/
def inIdOf (url : String) : Option String :=
  (scanLitSeg "/in/".data url.data).map String.mk

/-- Embeds `_generate_smart_url`. -/
def generateSmartUrl (baseUrl postId postType : String) : String :=
  if pyContains baseUrl "/company/" then
    match companyIdOf baseUrl with
    | some cid =>
        if postType = "emploi" then
          "https://www.linkedin.com/company/" ++ cid ++ "/jobs/"
        else
          "https://www.linkedin.com/company/" ++ cid ++ "/posts/"
    | none => baseUrl
  else baseUrl

/-- The body of the loop in `generate_realistic_posts` for the `i`-th selected
template. -/
def mkGeneratedPost (e : ProfEnv) (c : Clock) (profileName url : String)
    (i : Nat) (t : GenTemplate) : PostData :=
  let personalizedTitle := personalizeContent e (2 * i) t.title profileName
  let personalizedDesc := personalizeContent e (2 * i + 1) t.description profileName
  let contentForId := profileName ++ personalizedTitle ++ c.full
  let postId := (sha256HexOf contentForId).take 12
  { profile_name := profileName,
    post_title := personalizedTitle,
    post_description := personalizedDesc,
    post_url := generateSmartUrl url postId t.ttype,
    detection_time := c.dmyhm,
    post_id := postId,
    post_type := t.ttype,
    source_method := "intelligent_generation" }

/-- Embeds `generate_realistic_posts`: pick the template list for the profile
(`company_templates.get(name, generic_templates)`), draw
`random.sample(templates, min(2, len(templates)))`, and build one post per
selected template. -/
def generateRealisticPosts (e : ProfEnv) (c : Clock)
    (profileName url : String) : List PostData :=
  let templates := (companyTemplates.lookup profileName).getD genericTemplates
  let selected := e.sample2 templates
  selected.enum.map (fun it => mkGeneratedPost e c profileName url it.1 it.2)

/-! ## `SmartContentExtractor`: cleaning, validation and derivation helpers -/

/-- Scan for the content of a `<...>` group: characters up to the next `'>'`,
and the remainder after it. -/
def splitAtGt : List Char → Option (List Char × List Char)
  | [] => none
  | c :: rest =>
      if c = '>' then some ([], rest)
      else (splitAtGt rest).map (fun p => (c :: p.1, p.2))

/-- Embeds `re.sub(r'<[^>]+>', ' ', text)`: each `<`, at least one non-`>` character,
then `>` is replaced by a single space (fuelled; the fuel is the length). -/
def stripTagsGo : Nat → List Char → List Char
  | 0, l => l
  | fuel + 1, [] => []
  | fuel + 1, c :: rest =>
      if c = '<' then
        match splitAtGt rest with
        | some (content, after) =>
            if content ≠ [] then ' ' :: stripTagsGo fuel after
            else c :: stripTagsGo fuel rest
        | none => c :: stripTagsGo fuel rest
      else c :: stripTagsGo fuel rest

def stripTags (l : List Char) : List Char := stripTagsGo l.length l

/-- The `html_entities` replacement table, in the source's (dict insertion)
order; the replacements are applied sequentially. -/
def htmlEntities : List (String × String) :=
  [("&amp;", "&"), ("&lt;", "<"), ("&gt;", ">"), ("&quot;", "\""), ("&#x27;", "'"),
   ("&#39;", "'"), ("&nbsp;", " "), ("&hellip;", "..."), ("&rsquo;", "'"),
   ("&ldquo;", "“"), ("&rdquo;", "”"), ("&ndash;", "-"), ("&mdash;", "—"),
   ("&lsquo;", "'"), ("&trade;", "™"), ("&copy;", "©"), ("&reg;", "®"),
   ("&euro;", "€"), ("&pound;", "£"), ("&yen;", "¥")]

/-- Replace maximal runs of characters in `mem` by one space
(`re.sub(r'[..]+', ' ', s)` for a character class). -/
def collapseClass (mem : Char → Bool) : List Char → List Char
  | [] => []
  | [c] => if mem c then [' '] else [c]
  | a :: b :: rest =>
      if mem a && mem b then collapseClass mem (b :: rest)
      else (if mem a then ' ' else a) :: collapseClass mem (b :: rest)

/-- Embeds `[\x00-\x1f\x7f-\x9f]` (control characters removed by `_deep_clean_html`). -/
def isCtl (c : Char) : Bool :=
  c.toNat ≤ 0x1F || (0x7F ≤ c.toNat && c.toNat ≤ 0x9F)

/-- Embeds `_deep_clean_html`: strip tags, decode entities, collapse whitespace,
collapse `[\r\n\t]+`, drop control characters, strip. -/
def deepCleanHtml (htmlText : String) : String :=
  if htmlText = "" then ""
  else
    let t0 : String := ⟨stripTags htmlText.data⟩
    let t1 := htmlEntities.foldl (fun s p => s.replace p.1 p.2) t0
    let t2 : String := ⟨collapseClass isPySpace t1.data⟩
    let t3 : String := ⟨collapseClass (fun c => c = '\r' || c = '\n' || c = '\t') t2.data⟩
    let t4 : String := ⟨t3.data.filter (fun c => ¬ isCtl c)⟩
    pyStrip t4

/-- Match `b` after a run of `.` (which cannot cross `'\n'`): the tail of the
`re.search(r'a.*b', s)` attempt. -/
def bAfterNoNl (b : List Char) : List Char → Bool
  | [] => charsHavePre b []
  | c :: rest => charsHavePre b (c :: rest) || (c ≠ '\n' && bAfterNoNl b rest)

/-- Embeds `re.search(a ++ r'.*' ++ b, s) is not None` for literal `a`, `b`. -/
def seqGo (a b : List Char) : List Char → Bool
  | [] => false
  | c :: rest =>
      (charsHavePre a (c :: rest) && bAfterNoNl b ((c :: rest).drop a.length)) ||
      seqGo a b rest

def seqSearch (s a b : String) : Bool := seqGo a.data b.data s.data

/-- Embeds `noise_patterns`: `re.search(p, text)` for each of the five patterns
`^(accepter|accept|se connecter|login|sign|click|voir|view)`,
`^(cookies?|privacy|politique|terms)`, `linkedin.*inscription`,
`rejoindre.*linkedin`, `créer.*compte`.  The argument is already lowercased by
every caller. -/
def noiseMatch (text : String) : Bool :=
  ["accepter", "accept", "se connecter", "login", "sign", "click", "voir", "view"].any
      (fun p => pyStartsWith text p) ||
  ["cookie", "privacy", "politique", "terms"].any (fun p => pyStartsWith text p) ||
  seqSearch text "linkedin" "inscription" ||
  seqSearch text "rejoindre" "linkedin" ||
  seqSearch text "créer" "compte"

/-- Character class `[a-zA-ZÀ-ÿ]` of the source's word regexes (the Latin-1
range `À-ÿ` is the codepoint interval `0xC0`–`0xFF`). -/
def inLetterClass (c : Char) : Bool :=
  ('a' ≤ c && c ≤ 'z') || ('A' ≤ c && c ≤ 'Z') ||
  (0xC0 ≤ c.toNat && c.toNat ≤ 0xFF)

/-- A regex word character (`\w`) over the source's ASCII/Latin-1 text:
letters, digits, underscore. -/
def isWordChar (c : Char) : Bool :=
  ('a' ≤ c && c ≤ 'z') || ('A' ≤ c && c ≤ 'Z') || c.isDigit || c = '_' ||
  (0xC0 ≤ c.toNat && c.toNat ≤ 0xFF && c.toNat ≠ 0xD7 && c.toNat ≠ 0xF7)

/-- Maximal runs of word characters (the candidate `\b..\b` tokens). -/
def wordRuns (l : List Char) : List (List Char) :=
  (splitRuns (fun c => ¬ isWordChar c) l).filter (· ≠ [])

/-- Embeds `re.findall(r'\b[a-zA-ZÀ-ÿ]{4,}\b', content)` modelled on maximal word
runs: a token matches when it is made of class letters and has length `≥ 4`. -/
def meaningfulWords (content : String) : List String :=
  ((wordRuns content.data).filter
    (fun r => r.length ≥ 4 && r.all inLetterClass)).map String.mk

/-- Embeds `re.search(r'\b(k1|k2|..)\b', text)` for keyword alternatives: some maximal
word token equals one of the keywords. -/
def hasKeywordToken (text : String) (keywords : List String) : Bool :=
  (wordRuns text.data).any (fun r => keywords.contains (String.mk r))

/-- Embeds `professional_indicators` of `_is_authentic_post_content`. -/
def professionalIndicators : List (List String) :=
  [["innovation", "développement", "stratégie", "croissance", "équipe", "projet",
    "succès", "client", "partenaire"],
   ["technologie", "solution", "service", "produit", "entreprise", "business", "marché"],
   ["avenir", "vision", "objectif", "mission", "valeur", "engagement", "excellence"]]

/-- Embeds `_is_authentic_post_content`. -/
def isAuthenticPostContent (content : String) : Bool :=
  if content = "" || (pyStrip content).length < 25 then false
  else
    let contentLower := pyStrip (pyLower content)
    if noiseMatch contentLower then false
    else if (meaningfulWords content).length < 5 then false
    else
      professionalIndicators.any (fun ks => hasKeywordToken contentLower ks) &&
      (pyStrip content).length > 30

/-- Embeds `[s.strip() for s in re.split(r'[.!?]+', content) if len(s.strip()) > minLen]`. -/
def sentencesOver (minLen : Nat) (content : String) : List String :=
  (((splitRuns (fun c => c = '.' || c = '!' || c = '?') content.data).map
      (fun l => pyStrip (String.mk l))).filter (fun s => s.length > minLen))

/-- Embeds `context_keywords` of `_create_intelligent_title`, in dict order. -/
def contextKeywords : List (String × String) :=
  [("innovation", "🚀 Innovation technologique en cours"),
   ("recrut", "💼 Nouvelles opportunités de carrière"),
   ("partenariat", "🤝 Nouveau partenariat stratégique"),
   ("produit", "🎉 Lancement de produit innovant"),
   ("événement", "📅 Événement professionnel important"),
   ("résultat", "📊 Résultats et performances récentes")]

/-- Uppercase start class `[A-ZÀ-Ÿ]` of the `important_words` regex
(codepoints `0x41`–`0x5A` and `0xC0`–`0x178`). -/
def inUpperStart (c : Char) : Bool :=
  ('A' ≤ c && c ≤ 'Z') || (0xC0 ≤ c.toNat && c.toNat ≤ 0x178)

/-- Embeds `re.findall(r'\b[A-ZÀ-Ÿ][a-zA-ZÀ-ÿ]{3,}\b', content)` on maximal word runs. -/
def importantWords (content : String) : List String :=
  ((wordRuns content.data).filter (fun r =>
    match r with
    | c :: rest => inUpperStart c && rest.all inLetterClass && r.length ≥ 4
    | [] => false)).map String.mk

/-- Embeds `_create_intelligent_title`. -/
def createIntelligentTitle (content : String) : String :=
  if content = "" then "Nouvelle publication professionnelle"
  else
    let sentences := sentencesOver 20 content
    match (sentences.take 3).find? (fun s => ¬ noiseMatch (pyLower s)) with
    | some sentence =>
        if sentence.length ≤ 80 then
          pyStrip sentence ++ (if pyEndsWithAny sentence [".", "!", "?"] then "" else ".")
        else
          pyJoin " " ((pySplitWs sentence).take 12) ++ "..."
    | none =>
        let contentLower := pyLower content
        match contextKeywords.find? (fun kv => pyContains contentLower kv.1) with
        | some kv => kv.2
        | none =>
            let important := importantWords content
            if important ≠ [] then
              "Actualité: " ++ pyJoin " • " (important.take 3)
            else "Nouvelle publication LinkedIn"

/-- The word-budget truncation of `_create_intelligent_description`: take words
while the running length (with separating spaces) stays within 170, then stop
(`break`). -/
def truncWords : List String → Nat → List String
  | [], _ => []
  | w :: ws, cur =>
      if cur + w.length + 1 ≤ 170 then w :: truncWords ws (cur + w.length + 1)
      else []

/-- Embeds `_create_intelligent_description`. -/
def createIntelligentDescription (content : String) : String :=
  if content = "" then "Nouveau contenu partagé sur LinkedIn"
  else
    let sentences := sentencesOver 15 content
    let good := (sentences.take 4).filter
      (fun s => ¬ noiseMatch (pyLower s) && s.length > 20)
    if good ≠ [] then
      let description := pyJoin ". " (good.take 2)
      let description :=
        if description.length > 180 then
          pyJoin " " (truncWords (pySplitWs description) 0) ++ "..."
        else description
      description ++
        (if pyEndsWithAny description [".", "!", "?", "..."] then "" else ".")
    else "Nouvelle publication professionnelle partagée récemment"

/-- Embeds `type_patterns` of `_detect_content_type`, in dict order. -/
def typePatterns : List (String × List String) :=
  [("emploi", ["job", "emploi", "recrutement", "carrière", "poste", "opportunité", "hiring"]),
   ("evenement", ["event", "événement", "conférence", "webinar", "séminaire", "formation"]),
   ("produit", ["produit", "product", "lancement", "launch", "nouveau", "innovation"]),
   ("partenariat", ["partenariat", "partnership", "collaboration", "alliance"]),
   ("actualite", ["actualité", "news", "annonce", "communiqué", "information"])]

/-- Embeds `_detect_content_type`. -/
def detectContentType (content : String) : String :=
  let contentLower := pyLower content
  match typePatterns.find? (fun kv => hasKeywordToken contentLower kv.2) with
  | some kv => kv.1
  | none => "publication"

/-- Embeds `re.search(lit ++ r'(\d{10,})', s)`: first position where the literal is
followed by at least ten digits; group 1 is the maximal digit run there. -/
def litDigits (lit : List Char) : List Char → Option (List Char)
  | [] => none
  | c :: rest =>
      if charsHavePre lit (c :: rest) then
        let ds := ((c :: rest).drop lit.length).takeWhile Char.isDigit
        if ds.length ≥ 10 then some ds else litDigits lit rest
      else litDigits lit rest

/-- Embeds `re.search(r'(\d{10,})', s)`: leftmost maximal digit run of length `≥ 10`. -/
def digitRun : List Char → Option (List Char)
  | [] => none
  | c :: rest =>
      if c.isDigit then
        let ds := (c :: rest).takeWhile Char.isDigit
        if ds.length ≥ 10 then some ds else digitRun rest
      else digitRun rest

/-- Embeds `_extract_or_generate_id`: try the three `id_patterns` on the identifier,
else hash identifier plus the first 100 characters of the content. -/
def extractOrGenerateId (identifier content : String) : String :=
  match litDigits "urn:li:activity:".data identifier.data with
  | some d => String.mk d
  | none =>
      match litDigits "activity:".data identifier.data with
      | some d => String.mk d
      | none =>
          match digitRun identifier.data with
          | some d => String.mk d
          | none => (sha256HexOf (identifier ++ content.take 100)).take 12

/-- Embeds `_create_optimized_url` (the `post_id` argument is unused in the source too). -/
def createOptimizedUrl (profileUrl postId : String) : String :=
  if pyContains profileUrl "/company/" then
    match companyIdOf profileUrl with
    | some cid => "https://www.linkedin.com/company/" ++ cid ++ "/posts/"
    | none => profileUrl
  else if pyContains profileUrl "/in/" then
    match inIdOf profileUrl with
    | some pid => "https://www.linkedin.com/in/" ++ pid ++ "/recent-activity/all/"
    | none => profileUrl
  else profileUrl

/-! ## `_extract_authentic_content` and `extract_or_generate_content` -/

/-- Build one authentic post (the append in `_extract_authentic_content`). -/
def mkAuthenticPost (c : Clock) (profileName profileUrl identifier cleanContent : String) :
    PostData :=
  let postId := extractOrGenerateId identifier cleanContent
  { profile_name := profileName,
    post_title := createIntelligentTitle cleanContent,
    post_description := createIntelligentDescription cleanContent,
    post_url := createOptimizedUrl profileUrl postId,
    detection_time := c.dmyhm,
    post_id := postId,
    post_type := detectContentType cleanContent,
    source_method := "authentic_extraction" }

/-- The inner `for match in matches` loop: clean and validate each `(identifier,
content)` group pair, deduplicate against `found_content`, append, and `break`
once two posts are collected. -/
def extMatches (c : Clock) (profileName profileUrl : String) :
    List (String × String) → List PostData → List String → List PostData × List String
  | [], posts, found => (posts, found)
  | (identifier, content) :: ms, posts, found =>
      let cleanContent := deepCleanHtml content
      if isAuthenticPostContent cleanContent && ¬ found.contains cleanContent then
        let posts1 := posts ++ [mkAuthenticPost c profileName profileUrl identifier cleanContent]
        let found1 := found ++ [cleanContent]
        if posts1.length ≥ 2 then (posts1, found1)
        else extMatches c profileName profileUrl ms posts1 found1
      else extMatches c profileName profileUrl ms posts found

/-- Embeds `_extract_authentic_content`: the three `authentic_patterns` are tried in
order (their `re.findall` results come from the environment, indexed 0–2); the
outer loop breaks as soon as two posts are collected. -/
def extractAuthenticContent (e : ProfEnv) (c : Clock)
    (html profileName profileUrl : String) : List PostData :=
  let r0 := extMatches c profileName profileUrl (e.findall 0 html) [] []
  if r0.1.length ≥ 2 then r0.1
  else
    let r1 := extMatches c profileName profileUrl (e.findall 1 html) r0.1 r0.2
    if r1.1.length ≥ 2 then r1.1
    else (extMatches c profileName profileUrl (e.findall 2 html) r1.1 r1.2).1

/-- Embeds `extract_or_generate_content`: try authentic extraction when detection did
not fail and the body is non-empty; otherwise (or when it yields nothing) fall
back to `generate_realistic_posts`. -/
def extractOrGenerateContent (e : ProfEnv) (c : Clock)
    (htmlContent profileUrl profileName : String) (detectionFailed : Bool) :
    List PostData :=
  if ¬ detectionFailed && htmlContent ≠ "" then
    let realPosts := extractAuthenticContent e c htmlContent profileName profileUrl
    if realPosts ≠ [] then realPosts
    else generateRealisticPosts e c profileName profileUrl
  else generateRealisticPosts e c profileName profileUrl

/-! ## `EnhancedContentAnalyzer` -/

/-- The per-post contribution to the fingerprint: the first 30 characters of
the title and the post type. -/
def postSignal (p : PostData) : String × String := (p.post_title.take 30, p.post_type)

/-- Embeds `_generate_intelligent_hash`: with posts, hash `name_YYYYMMDD` followed by
each post's 30-character title prefix and type; with no posts, hash
`name_YYYYMMDDHH`.  Truncated to 20 hex characters.  (`detection_failed` is a
parameter of the source function but is not read.) -/
def generateIntelligentHash (c : Clock) (postsData : List PostData)
    (profileName : String) (detectionFailed : Bool) : String :=
  if postsData ≠ [] then
    let combined := postsData.foldl
      (fun acc p => acc ++ p.post_title.take 30 ++ p.post_type)
      (profileName ++ "_" ++ c.ymd)
    (sha256HexOf combined).take 20
  else
    (sha256HexOf (profileName ++ "_" ++ c.ymdh)).take 20

/-- Embeds `_calculate_smart_score`. -/
def calculateSmartScore (postsData : List PostData) (detectionFailed : Bool) : Nat :=
  if postsData = [] then 0
  else
    let base := postsData.foldl
      (fun acc p =>
        if p.source_method = "authentic_extraction" then acc + 15
        else if p.source_method = "intelligent_generation" then acc + 10
        else acc)
      (postsData.length * 20)
    min base 100

/-- The analysis dictionary returned by `analyze_with_intelligent_fallback`
(the fields the pipeline reads). -/
structure Analysis where
  content_hash : String
  activity_score : Nat
  post_count : Nat
  posts_data : List PostData
  timestamp : String
  detection_method : String
  content_quality : String
deriving DecidableEq, Repr

/-- Embeds `analyze_with_intelligent_fallback` (the non-exceptional path; all callees
are total here). -/
def analyzeWithIntelligentFallback (e : ProfEnv) (c : Clock)
    (htmlContent profileUrl profileName : String) (detectionFailed : Bool) : Analysis :=
  let postsData := extractOrGenerateContent e c htmlContent profileUrl profileName detectionFailed
  { content_hash := generateIntelligentHash c postsData profileName detectionFailed,
    activity_score := calculateSmartScore postsData detectionFailed,
    post_count := postsData.length,
    posts_data := postsData,
    timestamp := c.iso,
    detection_method := if detectionFailed then "intelligent_fallback" else "extraction",
    content_quality := if detectionFailed then "generated" else "authentic" }

/-! ## `OptimizedLinkedInMonitor` -/

/-- Embeds `check_profile_with_anti_detection`: the fetch loop is summarised by
`e.fetched` (`some body` when some strategy returned status 200, `none` when
all failed); then the analysis runs with the intelligent fallback, and the
profile's `error_count` is reset on non-empty `posts_data` and incremented
otherwise.  Returns the analysis (`None` in the source when `posts_data` is
empty) and the updated profile. -/
def checkProfileWithAntiDetection (e : ProfEnv) (c : Clock) (p : ProfileData) :
    Option Analysis × ProfileData :=
  let detectionFailed := e.fetched.isNone
  let htmlContent := e.fetched.getD ""
  let analysis := analyzeWithIntelligentFallback e c htmlContent p.url p.name detectionFailed
  if analysis.posts_data ≠ [] then
    (some analysis, { p with error_count := 0, last_success := some c.iso })
  else
    (none, { p with error_count := p.error_count + 1 })

/-- Observable actions of one run, in order: `check i` when profile `i` is
actually fetched/analyzed, `save` for the `save_profiles` call, `notify` for
the `send_ultra_modern_notification` call. -/
inductive Event where
  | check (i : Nat)
  | save (profiles : List ProfileData)
  | notify (posts : List PostData)
deriving DecidableEq, Repr

/-- The loop state of `run_anti_detection_monitoring`. -/
structure RunAcc where
  profiles : List ProfileData
  changesMade : Bool
  allNewPosts : List PostData
  success : Nat
  changes : Nat
  errors : Nat
  authenticPosts : Nat
  generatedPosts : Nat
  trace : List Event
deriving Repr

def RunAcc.init : RunAcc := ⟨[], false, [], 0, 0, 0, 0, 0, []⟩

/-- Stats counting per analysed post (`authentic_posts` / `generated_posts`). -/
def countBySource (method : String) (posts : List PostData) : Nat :=
  (posts.filter (fun p => p.source_method = method)).length

/-- One iteration of the `for i, profile in enumerate(profiles)` loop: skip a
profile whose `error_count` reached 5; otherwise check it, and on a hash
difference record the change, extend the accumulation buffer and update
`last_post_id`. -/
def runStep (envs : Nat → ProfEnv) (c : Clock) (acc : RunAcc) (ip : Nat × ProfileData) :
    RunAcc :=
  let i := ip.1
  let p := ip.2
  if p.error_count ≥ 5 then
    { acc with profiles := acc.profiles ++ [p] }
  else
    let r := checkProfileWithAntiDetection (envs i) c p
    let acc := { acc with trace := acc.trace ++ [Event.check i] }
    match r.1 with
    | some analysis =>
        let acc := { acc with
          success := acc.success + 1,
          authenticPosts := acc.authenticPosts +
            countBySource "authentic_extraction" analysis.posts_data,
          generatedPosts := acc.generatedPosts +
            countBySource "intelligent_generation" analysis.posts_data }
        if r.2.last_post_id ≠ analysis.content_hash then
          { acc with
            changes := acc.changes + 1,
            changesMade := true,
            allNewPosts := acc.allNewPosts ++ analysis.posts_data,
            profiles := acc.profiles ++ [{ r.2 with last_post_id := analysis.content_hash }] }
        else
          { acc with profiles := acc.profiles ++ [r.2] }
    | none =>
        { acc with errors := acc.errors + 1, profiles := acc.profiles ++ [r.2] }

/-- The outcome of `run_anti_detection_monitoring`. -/
structure RunResult where
  profiles : List ProfileData
  buffer : List PostData
  trace : List Event
  changesMade : Bool
  success : Nat
  changes : Nat
  errors : Nat
  generatedPosts : Nat
  authenticPosts : Nat
  ok : Bool
deriving Repr

/-- Embeds `run_anti_detection_monitoring`, given the already-loaded profile list:
process the profiles in order, then save once if any fingerprint changed, then
notify once if the accumulation buffer is non-empty; the run succeeds when some
profile was processed successfully or some post was generated. -/
def runAntiDetectionMonitoring (envs : Nat → ProfEnv) (c : Clock)
    (profiles : List ProfileData) : RunResult :=
  let acc := profiles.enum.foldl (runStep envs c) RunAcc.init
  let trace1 := if acc.changesMade then acc.trace ++ [Event.save acc.profiles] else acc.trace
  let trace2 := if acc.allNewPosts ≠ [] then trace1 ++ [Event.notify acc.allNewPosts] else trace1
  { profiles := acc.profiles,
    buffer := acc.allNewPosts,
    trace := trace2,
    changesMade := acc.changesMade,
    success := acc.success,
    changes := acc.changes,
    errors := acc.errors,
    generatedPosts := acc.generatedPosts,
    authenticPosts := acc.authenticPosts,
    ok := acc.success > 0 || acc.generatedPosts > 0 }

/-! ## Profile loading (`_parse_row`, `load_profiles`) and the entry point -/

/-- One CSV record as `csv.DictReader` hands it to `_parse_row`:
`row.get('URL', '')` etc.; `errorCount = none` models an absent
`Error_Count` column (`row.get('Error_Count', 0)` then yields the default 0). -/
structure CsvRow where
  url : String := ""
  name : String := ""
  lastPostId : String := ""
  errorCount : Option String := none
deriving Repr

/-- Embeds `int(x)` for the strings Python accepts: optional sign and at least one
digit, surrounded by whitespace; anything else raises (modelled as `none`). -/
def pyIntOfDigits (l : List Char) : Option Nat :=
  if l ≠ [] && l.all Char.isDigit then
    some (l.foldl (fun acc c => acc * 10 + (c.toNat - 48)) 0)
  else none

def pyInt (s : String) : Option Int :=
  match (pyStrip s).data with
  | '+' :: ds => (pyIntOfDigits ds).map Int.ofNat
  | '-' :: ds => (pyIntOfDigits ds).map (fun n => -(n : Int))
  | ds => (pyIntOfDigits ds).map Int.ofNat

/-- Embeds `_parse_row`: `int(row.get('Error_Count', 0) or 0)` (empty string or
absent column give 0; an unparsable string raises, dropping the row), then the
row is kept iff the stripped URL and name are both non-empty. -/
def parseRow (nowIso : String) (row : CsvRow) : Option ProfileData :=
  let ec : Option Int :=
    match row.errorCount with
    | none => some 0
    | some s => if s = "" then some 0 else pyInt s
  match ec with
  | none => none
  | some n =>
      if pyStrip row.url ≠ "" && pyStrip row.name ≠ "" then
        some (ProfileData.make nowIso row.url row.name row.lastPostId n)
      else none

/-- Embeds `load_profiles` for a readable, decodable CSV file: parse each row,
dropping the ones `_parse_row` rejects. -/
def loadProfiles (nowIso : String) (rows : List CsvRow) : List ProfileData :=
  rows.filterMap (parseRow nowIso)

/-- Embeds `validate_environment`: requires the three mail variables to be set and
non-blank, else raises `ValueError` (modelled as `none`). -/
def validateEnvironment (getenv : String → Option String) : Option (String × String × String) :=
  match getenv "GMAIL_EMAIL", getenv "GMAIL_APP_PASSWORD", getenv "RECIPIENT_EMAIL" with
  | some a, some b, some c =>
      if pyStrip a ≠ "" && pyStrip b ≠ "" && pyStrip c ≠ "" then
        some (pyStrip a, pyStrip b, pyStrip c)
      else none
  | _, _, _ => none

/-- Embeds `main`'s process exit code: configuration failure is caught by the
top-level `except`, which calls `sys.exit(0)`; a successful run calls
`sys.exit(0)`; an unsuccessful run also calls `sys.exit(0)` (the source
comments both non-success exits with avoiding CI failures). -/
def mainExitCode (getenv : String → Option String) (envs : Nat → ProfEnv)
    (c : Clock) (rows : List CsvRow) : Nat :=
  match validateEnvironment getenv with
  | none => 0
  | some _ =>
      let result := runAntiDetectionMonitoring envs c (loadProfiles c.iso rows)
      if result.ok then 0 else 0

/-- Embeds `send_ultra_modern_notification`'s guard: with an empty post list it
returns `True` without composing or sending anything; otherwise it composes
and dispatches exactly one message. -/
def sendUltraModernNotification (posts : List PostData) : Bool × Nat :=
  if posts = [] then (true, 0) else (true, 1)

/-! ## Infrastructure lemmas about the run fold -/

theorem analyze_posts_data (e : ProfEnv) (c : Clock) (h u n : String) (df : Bool) :
    (analyzeWithIntelligentFallback e c h u n df).posts_data =
      extractOrGenerateContent e c h u n df := rfl

theorem analyze_content_hash (e : ProfEnv) (c : Clock) (h u n : String) (df : Bool) :
    (analyzeWithIntelligentFallback e c h u n df).content_hash =
      generateIntelligentHash c (extractOrGenerateContent e c h u n df) n df := rfl

theorem templatesFor_length (name : String) :
    ((companyTemplates.lookup name).getD genericTemplates).length = 2 := by
  simp only [companyTemplates, List.lookup]
  repeat' split
  all_goals rfl

theorem generateRealisticPosts_length (e : ProfEnv) (c : Clock) (hwf : e.Wf)
    (name url : String) : (generateRealisticPosts e c name url).length = 2 := by
  unfold generateRealisticPosts
  rw [List.length_map, List.enum_length, hwf.1, templatesFor_length]
  rfl

theorem extractOrGenerate_ne_nil (e : ProfEnv) (c : Clock) (hwf : e.Wf)
    (html url name : String) (df : Bool) :
    extractOrGenerateContent e c html url name df ≠ [] := by
  have hgen : generateRealisticPosts e c name url ≠ [] := by
    intro hcon
    have := generateRealisticPosts_length e c hwf name url
    rw [hcon] at this
    simp at this
  unfold extractOrGenerateContent
  dsimp only
  split
  · split
    · assumption
    · exact hgen
  · exact hgen

theorem checkProfile_succeeds (e : ProfEnv) (c : Clock) (p : ProfileData) (hwf : e.Wf) :
    checkProfileWithAntiDetection e c p =
      (some (analyzeWithIntelligentFallback e c (e.fetched.getD "") p.url p.name e.fetched.isNone),
       { p with error_count := 0, last_success := some c.iso }) := by
  unfold checkProfileWithAntiDetection
  rw [if_pos]
  rw [analyze_posts_data]
  exact extractOrGenerate_ne_nil e c hwf _ _ _ _

/-- Component-wise combination of two run-loop states. -/
def RunAcc.merge (a b : RunAcc) : RunAcc :=
  ⟨a.profiles ++ b.profiles, a.changesMade || b.changesMade, a.allNewPosts ++ b.allNewPosts,
   a.success + b.success, a.changes + b.changes, a.errors + b.errors,
   a.authenticPosts + b.authenticPosts, a.generatedPosts + b.generatedPosts,
   a.trace ++ b.trace⟩

/-- The contribution of one loop iteration on its own. -/
def stepOut (envs : Nat → ProfEnv) (c : Clock) (ip : Nat × ProfileData) : RunAcc :=
  runStep envs c RunAcc.init ip

theorem RunAcc.init_merge (a : RunAcc) : RunAcc.init.merge a = a := by
  simp [RunAcc.merge, RunAcc.init]

theorem RunAcc.merge_init (a : RunAcc) : a.merge RunAcc.init = a := by
  simp [RunAcc.merge, RunAcc.init]

theorem RunAcc.merge_assoc (a b d : RunAcc) :
    (a.merge b).merge d = a.merge (b.merge d) := by
  simp [RunAcc.merge, List.append_assoc, Nat.add_assoc, Bool.or_assoc]

theorem runStep_eq_merge (envs : Nat → ProfEnv) (c : Clock) (acc : RunAcc)
    (ip : Nat × ProfileData) :
    runStep envs c acc ip = acc.merge (stepOut envs c ip) := by
  rcases ip with ⟨i, p⟩
  unfold stepOut runStep
  rcases hc : checkProfileWithAntiDetection (envs i) c p with ⟨oa, p1⟩
  by_cases hskip : p.error_count ≥ 5
  · simp [hskip, RunAcc.merge, RunAcc.init]
  · simp only [hskip, if_false, hc]
    cases oa with
    | none => simp [RunAcc.merge, RunAcc.init]
    | some a =>
        by_cases hne : p1.last_post_id ≠ a.content_hash
        · simp [hne, RunAcc.merge, RunAcc.init]
        · simp [hne, RunAcc.merge, RunAcc.init]

theorem foldl_runStep_merge (envs : Nat → ProfEnv) (c : Clock)
    (l : List (Nat × ProfileData)) (acc : RunAcc) :
    l.foldl (runStep envs c) acc = acc.merge (l.foldl (runStep envs c) RunAcc.init) := by
  induction l generalizing acc with
  | nil => simp [RunAcc.merge_init]
  | cons a l ih =>
      rw [List.foldl_cons, List.foldl_cons, ih, ih (runStep envs c RunAcc.init a),
        runStep_eq_merge, runStep_eq_merge, RunAcc.init_merge, RunAcc.merge_assoc]

theorem foldl_runStep_cons (envs : Nat → ProfEnv) (c : Clock)
    (a : Nat × ProfileData) (l : List (Nat × ProfileData)) :
    (a :: l).foldl (runStep envs c) RunAcc.init =
      (stepOut envs c a).merge (l.foldl (runStep envs c) RunAcc.init) := by
  rw [List.foldl_cons, foldl_runStep_merge, runStep_eq_merge, RunAcc.init_merge]

theorem stepOut_skip (envs : Nat → ProfEnv) (c : Clock) (i : Nat) (p : ProfileData)
    (h : p.error_count ≥ 5) :
    stepOut envs c (i, p) = ⟨[p], false, [], 0, 0, 0, 0, 0, []⟩ := by
  unfold stepOut runStep
  simp [h, RunAcc.init]

@[simp] theorem RunAcc.merge_profiles (a b : RunAcc) :
    (a.merge b).profiles = a.profiles ++ b.profiles := rfl

@[simp] theorem RunAcc.merge_changesMade (a b : RunAcc) :
    (a.merge b).changesMade = (a.changesMade || b.changesMade) := rfl

@[simp] theorem RunAcc.merge_allNewPosts (a b : RunAcc) :
    (a.merge b).allNewPosts = a.allNewPosts ++ b.allNewPosts := rfl

@[simp] theorem RunAcc.merge_success (a b : RunAcc) :
    (a.merge b).success = a.success + b.success := rfl

@[simp] theorem RunAcc.merge_changes (a b : RunAcc) :
    (a.merge b).changes = a.changes + b.changes := rfl

@[simp] theorem RunAcc.merge_generatedPosts (a b : RunAcc) :
    (a.merge b).generatedPosts = a.generatedPosts + b.generatedPosts := rfl

@[simp] theorem RunAcc.merge_trace (a b : RunAcc) :
    (a.merge b).trace = a.trace ++ b.trace := rfl

/-- The profile state one loop iteration leaves behind (for a processed profile
this uses that, in this embedding, `check_profile_with_anti_detection` always
returns a non-`None` analysis for a well-formed environment, and that in both
the changed and the unchanged branch the resulting `last_post_id` equals the
computed fingerprint). -/
def afterProfile (envs : Nat → ProfEnv) (c : Clock) (i : Nat) (p : ProfileData) :
    ProfileData :=
  if p.error_count ≥ 5 then p
  else
    let a := analyzeWithIntelligentFallback (envs i) c ((envs i).fetched.getD "")
      p.url p.name (envs i).fetched.isNone
    { p with error_count := 0, last_success := some c.iso, last_post_id := a.content_hash }

theorem stepOut_processed (envs : Nat → ProfEnv) (c : Clock) (i : Nat) (p : ProfileData)
    (hwf : (envs i).Wf) (h : ¬ p.error_count ≥ 5) :
    stepOut envs c (i, p) =
      (if p.last_post_id ≠ (analyzeWithIntelligentFallback (envs i) c
          ((envs i).fetched.getD "") p.url p.name (envs i).fetched.isNone).content_hash then
        ⟨[afterProfile envs c i p], true,
         (analyzeWithIntelligentFallback (envs i) c ((envs i).fetched.getD "")
           p.url p.name (envs i).fetched.isNone).posts_data, 1, 1, 0,
         countBySource "authentic_extraction"
           (analyzeWithIntelligentFallback (envs i) c ((envs i).fetched.getD "")
             p.url p.name (envs i).fetched.isNone).posts_data,
         countBySource "intelligent_generation"
           (analyzeWithIntelligentFallback (envs i) c ((envs i).fetched.getD "")
             p.url p.name (envs i).fetched.isNone).posts_data, [Event.check i]⟩
      else
        ⟨[afterProfile envs c i p], false, [], 1, 0, 0,
         countBySource "authentic_extraction"
           (analyzeWithIntelligentFallback (envs i) c ((envs i).fetched.getD "")
             p.url p.name (envs i).fetched.isNone).posts_data,
         countBySource "intelligent_generation"
           (analyzeWithIntelligentFallback (envs i) c ((envs i).fetched.getD "")
             p.url p.name (envs i).fetched.isNone).posts_data, [Event.check i]⟩) := by
  have hc := checkProfile_succeeds (envs i) c p hwf
  unfold stepOut runStep
  dsimp only
  rw [if_neg h, hc]
  dsimp only
  unfold afterProfile
  rw [if_neg h]
  dsimp only
  split_ifs with hne
  · simp [RunAcc.init]
  · have hid : p.last_post_id = (analyzeWithIntelligentFallback (envs i) c
        ((envs i).fetched.getD "") p.url p.name (envs i).fetched.isNone).content_hash := by
      by_contra hcon
      exact hne hcon
    cases p
    simp_all [RunAcc.init]

theorem stepOut_profiles (envs : Nat → ProfEnv) (c : Clock) (i : Nat) (p : ProfileData)
    (hwf : (envs i).Wf) :
    (stepOut envs c (i, p)).profiles = [afterProfile envs c i p] := by
  by_cases h : p.error_count ≥ 5
  · rw [stepOut_skip _ _ _ _ h]
    unfold afterProfile
    rw [if_pos h]
  · rw [stepOut_processed _ _ _ _ hwf h]
    split_ifs <;> rfl

theorem stepOut_trace_cases (envs : Nat → ProfEnv) (c : Clock) (i : Nat) (p : ProfileData) :
    (stepOut envs c (i, p)).trace = (if p.error_count ≥ 5 then [] else [Event.check i]) := by
  by_cases h : p.error_count ≥ 5
  · rw [stepOut_skip _ _ _ _ h, if_pos h]
  · rw [if_neg h]
    unfold stepOut runStep
    dsimp only
    rw [if_neg h]
    rcases checkProfileWithAntiDetection (envs i) c p with ⟨oa, p1⟩
    cases oa with
    | none => simp [RunAcc.init]
    | some a =>
        dsimp only
        split_ifs <;> simp [RunAcc.init]

theorem stepOut_changed_iff (envs : Nat → ProfEnv) (c : Clock) (i : Nat) (p : ProfileData) :
    (stepOut envs c (i, p)).changesMade = true ↔ (stepOut envs c (i, p)).changes > 0 := by
  unfold stepOut runStep
  dsimp only
  by_cases h : p.error_count ≥ 5
  · simp [h, RunAcc.init]
  · simp only [h, if_false]
    rcases checkProfileWithAntiDetection (envs i) c p with ⟨oa, p1⟩
    cases oa with
    | none => simp [RunAcc.init]
    | some a =>
        dsimp only
        split_ifs <;> simp [RunAcc.init]

theorem stepOut_success_cases (envs : Nat → ProfEnv) (c : Clock) (i : Nat) (p : ProfileData)
    (hwf : (envs i).Wf) :
    (stepOut envs c (i, p)).success = (if p.error_count ≥ 5 then 0 else 1) := by
  by_cases h : p.error_count ≥ 5
  · rw [stepOut_skip _ _ _ _ h, if_pos h]
  · rw [stepOut_processed _ _ _ _ hwf h, if_neg h]
    split_ifs <;> rfl

theorem stepOut_generated_skip (envs : Nat → ProfEnv) (c : Clock) (i : Nat) (p : ProfileData)
    (h : p.error_count ≥ 5) : (stepOut envs c (i, p)).generatedPosts = 0 := by
  rw [stepOut_skip _ _ _ _ h]

/-- The profile states left behind by the loop, starting at index `n`. -/
def passOne (envs : Nat → ProfEnv) (c : Clock) : Nat → List ProfileData → List ProfileData
  | _, [] => []
  | n, p :: ps => afterProfile envs c n p :: passOne envs c (n + 1) ps

theorem passOne_length (envs : Nat → ProfEnv) (c : Clock) :
    ∀ (ps : List ProfileData) (n : Nat), (passOne envs c n ps).length = ps.length := by
  intro ps
  induction ps with
  | nil => intro n; rfl
  | cons p ps ih => intro n; simp [passOne, ih]

theorem fold_profiles (envs : Nat → ProfEnv) (c : Clock) (hwf : ∀ j, (envs j).Wf) :
    ∀ (ps : List ProfileData) (n : Nat),
    ((List.enumFrom n ps).foldl (runStep envs c) RunAcc.init).profiles = passOne envs c n ps := by
  intro ps
  induction ps with
  | nil => intro n; rfl
  | cons p ps ih =>
      intro n
      have : List.enumFrom n (p :: ps) = (n, p) :: List.enumFrom (n + 1) ps := rfl
      rw [this, foldl_runStep_cons, RunAcc.merge_profiles,
        stepOut_profiles _ _ _ _ (hwf n), ih]
      rfl

theorem passOne_get (envs : Nat → ProfEnv) (c : Clock) :
    ∀ (ps : List ProfileData) (n k : Nat) (hk : k < ps.length),
    (passOne envs c n ps).get ⟨k, by rw [passOne_length]; exact hk⟩ =
      afterProfile envs c (n + k) (ps.get ⟨k, hk⟩) := by
  intro ps
  induction ps with
  | nil => intro n k hk; exact absurd hk (by simp)
  | cons p ps ih =>
      intro n k hk
      cases k with
      | zero => rfl
      | succ k =>
          have hk2 : k < ps.length := Nat.lt_of_succ_lt_succ hk
          have := ih (n + 1) k hk2
          simp only [passOne, List.get_cons_succ]
          rw [this]
          congr 1
          omega

theorem check_mem_trace_imp (envs : Nat → ProfEnv) (c : Clock) (i : Nat) :
    ∀ (ps : List ProfileData) (n : Nat),
    Event.check i ∈ ((List.enumFrom n ps).foldl (runStep envs c) RunAcc.init).trace →
    ∃ k, ∃ hk : k < ps.length, n + k = i ∧ ¬ (ps.get ⟨k, hk⟩).error_count ≥ 5 := by
  intro ps
  induction ps with
  | nil => intro n hmem; exact absurd hmem (by simp [RunAcc.init])
  | cons p ps ih =>
      intro n hmem
      have hrw : List.enumFrom n (p :: ps) = (n, p) :: List.enumFrom (n + 1) ps := rfl
      rw [hrw, foldl_runStep_cons, RunAcc.merge_trace, List.mem_append] at hmem
      rcases hmem with hmem | hmem
      · rw [stepOut_trace_cases] at hmem
        by_cases h : p.error_count ≥ 5
        · rw [if_pos h] at hmem
          exact absurd hmem (by simp)
        · rw [if_neg h] at hmem
          simp at hmem
          refine ⟨0, by simp, by omega, ?_⟩
          simpa using h
      · rcases ih (n + 1) hmem with ⟨k, hk, hik, hproc⟩
        refine ⟨k + 1, by simpa using Nat.succ_lt_succ hk, by omega, ?_⟩
        simpa using hproc

theorem fold_trace_checks (envs : Nat → ProfEnv) (c : Clock) :
    ∀ (l : List (Nat × ProfileData)) (ev : Event),
    ev ∈ (l.foldl (runStep envs c) RunAcc.init).trace → ∃ i, ev = Event.check i := by
  intro l
  induction l with
  | nil => intro ev hmem; exact absurd hmem (by simp [RunAcc.init])
  | cons a l ih =>
      intro ev hmem
      rw [foldl_runStep_cons, RunAcc.merge_trace, List.mem_append] at hmem
      rcases hmem with hmem | hmem
      · rcases a with ⟨i, p⟩
        rw [stepOut_trace_cases] at hmem
        by_cases h : p.error_count ≥ 5
        · rw [if_pos h] at hmem
          exact absurd hmem (by simp)
        · rw [if_neg h] at hmem
          simp at hmem
          exact ⟨i, hmem⟩
      · exact ih ev hmem

theorem fold_changed_iff (envs : Nat → ProfEnv) (c : Clock) :
    ∀ (l : List (Nat × ProfileData)),
    ((l.foldl (runStep envs c) RunAcc.init).changesMade = true ↔
      (l.foldl (runStep envs c) RunAcc.init).changes > 0) := by
  intro l
  induction l with
  | nil => simp [RunAcc.init]
  | cons a l ih =>
      rcases a with ⟨i, p⟩
      rw [foldl_runStep_cons, RunAcc.merge_changesMade, RunAcc.merge_changes]
      rw [Bool.or_eq_true]
      constructor
      · rintro (h | h)
        · have := (stepOut_changed_iff envs c i p).1 h
          omega
        · have := ih.1 h
          omega
      · intro h
        by_cases hs : (stepOut envs c (i, p)).changes > 0
        · left
          exact (stepOut_changed_iff envs c i p).2 hs
        · right
          exact ih.2 (by omega)

theorem fold_success_count (envs : Nat → ProfEnv) (c : Clock) (hwf : ∀ j, (envs j).Wf) :
    ∀ (ps : List ProfileData) (n : Nat),
    ((List.enumFrom n ps).foldl (runStep envs c) RunAcc.init).success =
      ps.countP (fun p => decide (p.error_count < 5)) := by
  intro ps
  induction ps with
  | nil => intro n; rfl
  | cons p ps ih =>
      intro n
      have hrw : List.enumFrom n (p :: ps) = (n, p) :: List.enumFrom (n + 1) ps := rfl
      rw [hrw, foldl_runStep_cons, RunAcc.merge_success, stepOut_success_cases _ _ _ _ (hwf n),
        ih, List.countP_cons]
      by_cases h : p.error_count ≥ 5
      · rw [if_pos h]
        have : decide (p.error_count < 5) = false := by simp; omega
        rw [this]
        simp
        try omega
      · rw [if_neg h]
        have : decide (p.error_count < 5) = true := by simp; omega
        rw [this]
        simp
        try omega

theorem fold_success_zero_generated (envs : Nat → ProfEnv) (c : Clock) (hwf : ∀ j, (envs j).Wf) :
    ∀ (ps : List ProfileData) (n : Nat),
    ((List.enumFrom n ps).foldl (runStep envs c) RunAcc.init).success = 0 →
    ((List.enumFrom n ps).foldl (runStep envs c) RunAcc.init).generatedPosts = 0 := by
  intro ps
  induction ps with
  | nil => intro n _; rfl
  | cons p ps ih =>
      intro n hz
      have hrw : List.enumFrom n (p :: ps) = (n, p) :: List.enumFrom (n + 1) ps := rfl
      rw [hrw, foldl_runStep_cons, RunAcc.merge_success] at hz
      rw [hrw, foldl_runStep_cons, RunAcc.merge_generatedPosts]
      have hstep : (stepOut envs c (n, p)).success = 0 := by omega
      have hrest : ((List.enumFrom (n + 1) ps).foldl (runStep envs c) RunAcc.init).success = 0 := by
        omega
      have hskip : p.error_count ≥ 5 := by
        by_contra hproc
        rw [stepOut_success_cases _ _ _ _ (hwf n), if_neg hproc] at hstep
        omega
      rw [stepOut_generated_skip _ _ _ _ hskip, ih (n + 1) hrest]

theorem run_profiles_eq (envs : Nat → ProfEnv) (c : Clock) (ps : List ProfileData) :
    (runAntiDetectionMonitoring envs c ps).profiles =
      (ps.enum.foldl (runStep envs c) RunAcc.init).profiles := rfl

theorem run_buffer_eq (envs : Nat → ProfEnv) (c : Clock) (ps : List ProfileData) :
    (runAntiDetectionMonitoring envs c ps).buffer =
      (ps.enum.foldl (runStep envs c) RunAcc.init).allNewPosts := rfl

theorem run_changesMade_eq (envs : Nat → ProfEnv) (c : Clock) (ps : List ProfileData) :
    (runAntiDetectionMonitoring envs c ps).changesMade =
      (ps.enum.foldl (runStep envs c) RunAcc.init).changesMade := rfl

theorem run_ok_eq (envs : Nat → ProfEnv) (c : Clock) (ps : List ProfileData) :
    (runAntiDetectionMonitoring envs c ps).ok =
      ((ps.enum.foldl (runStep envs c) RunAcc.init).success > 0 ||
       (ps.enum.foldl (runStep envs c) RunAcc.init).generatedPosts > 0) := rfl

/-- The trace of a whole run: first the per-profile check events, then the
optional single save, then the optional single notification. -/
theorem run_trace_shape (envs : Nat → ProfEnv) (c : Clock) (ps : List ProfileData) :
    ∃ t0 : List Event,
      t0 = (ps.enum.foldl (runStep envs c) RunAcc.init).trace ∧
      (∀ ev ∈ t0, ∃ i, ev = Event.check i) ∧
      (runAntiDetectionMonitoring envs c ps).trace =
        t0 ++
        (if (runAntiDetectionMonitoring envs c ps).changesMade then
          [Event.save (runAntiDetectionMonitoring envs c ps).profiles] else []) ++
        (if (runAntiDetectionMonitoring envs c ps).buffer = [] then []
         else [Event.notify (runAntiDetectionMonitoring envs c ps).buffer]) := by
  refine ⟨(ps.enum.foldl (runStep envs c) RunAcc.init).trace, rfl,
    fold_trace_checks envs c ps.enum, ?_⟩
  show (let acc := ps.enum.foldl (runStep envs c) RunAcc.init
        let trace1 := if acc.changesMade then acc.trace ++ [Event.save acc.profiles] else acc.trace
        let trace2 := if acc.allNewPosts ≠ [] then trace1 ++ [Event.notify acc.allNewPosts] else trace1
        trace2) = _
  dsimp only
  rw [run_changesMade_eq, run_buffer_eq, run_profiles_eq]
  by_cases hch : (ps.enum.foldl (runStep envs c) RunAcc.init).changesMade
  all_goals by_cases hbuf : (ps.enum.foldl (runStep envs c) RunAcc.init).allNewPosts = []
  all_goals simp [hch, hbuf]

theorem afterProfile_url (envs : Nat → ProfEnv) (c : Clock) (i : Nat) (p : ProfileData) :
    (afterProfile envs c i p).url = p.url := by
  unfold afterProfile
  split_ifs <;> rfl

theorem afterProfile_name (envs : Nat → ProfEnv) (c : Clock) (i : Nat) (p : ProfileData) :
    (afterProfile envs c i p).name = p.name := by
  unfold afterProfile
  split_ifs <;> rfl

/-- Rechecking a profile in the state the previous check left it, in the same
environment, finds the same fingerprint: no change is recorded, nothing is
accumulated, and the profile is untouched. -/
theorem stepOut_afterProfile (envs : Nat → ProfEnv) (c : Clock) (i : Nat) (p : ProfileData)
    (hwf : (envs i).Wf) :
    (stepOut envs c (i, afterProfile envs c i p)).profiles = [afterProfile envs c i p] ∧
    (stepOut envs c (i, afterProfile envs c i p)).changesMade = false ∧
    (stepOut envs c (i, afterProfile envs c i p)).allNewPosts = [] := by
  by_cases h : p.error_count ≥ 5
  · have hq : afterProfile envs c i p = p := by
      unfold afterProfile
      rw [if_pos h]
    rw [hq, stepOut_skip _ _ _ _ h]
    exact ⟨rfl, rfl, rfl⟩
  · have hq : afterProfile envs c i p =
        { p with
          error_count := 0, last_success := some c.iso,
          last_post_id := (analyzeWithIntelligentFallback (envs i) c ((envs i).fetched.getD "")
            p.url p.name (envs i).fetched.isNone).content_hash } := by
      unfold afterProfile
      rw [if_neg h]
    have hq5 : ¬ (afterProfile envs c i p).error_count ≥ 5 := by
      rw [hq]
      norm_num
    rw [stepOut_processed _ _ _ _ hwf hq5]
    have hsame : analyzeWithIntelligentFallback (envs i) c ((envs i).fetched.getD "")
        (afterProfile envs c i p).url (afterProfile envs c i p).name (envs i).fetched.isNone =
        analyzeWithIntelligentFallback (envs i) c ((envs i).fetched.getD "")
          p.url p.name (envs i).fetched.isNone := by
      rw [afterProfile_url, afterProfile_name]
    have hid : (afterProfile envs c i p).last_post_id =
        (analyzeWithIntelligentFallback (envs i) c ((envs i).fetched.getD "")
          (afterProfile envs c i p).url (afterProfile envs c i p).name
          (envs i).fetched.isNone).content_hash := by
      rw [hsame, hq]
    rw [if_neg (by simpa using hid)]
    refine ⟨?_, rfl, rfl⟩
    have hfix : afterProfile envs c i (afterProfile envs c i p) = afterProfile envs c i p := by
      have hunf : afterProfile envs c i (afterProfile envs c i p) =
          (if (afterProfile envs c i p).error_count ≥ 5 then afterProfile envs c i p
           else
             { afterProfile envs c i p with
               error_count := 0, last_success := some c.iso,
               last_post_id := (analyzeWithIntelligentFallback (envs i) c
                 ((envs i).fetched.getD "") (afterProfile envs c i p).url
                 (afterProfile envs c i p).name (envs i).fetched.isNone).content_hash }) := rfl
      rw [hunf, if_neg hq5, hsame, hq]
    rw [hfix]

theorem fold_pass2 (envs : Nat → ProfEnv) (c : Clock) (hwf : ∀ j, (envs j).Wf) :
    ∀ (ps : List ProfileData) (n : Nat),
    (((List.enumFrom n (passOne envs c n ps)).foldl (runStep envs c) RunAcc.init).profiles
        = passOne envs c n ps) ∧
    (((List.enumFrom n (passOne envs c n ps)).foldl (runStep envs c) RunAcc.init).changesMade
        = false) ∧
    (((List.enumFrom n (passOne envs c n ps)).foldl (runStep envs c) RunAcc.init).allNewPosts
        = []) := by
  intro ps
  induction ps with
  | nil => intro n; exact ⟨rfl, rfl, rfl⟩
  | cons p ps ih =>
      intro n
      have hrw : List.enumFrom n (passOne envs c n (p :: ps)) =
          (n, afterProfile envs c n p) :: List.enumFrom (n + 1) (passOne envs c (n + 1) ps) := rfl
      rcases stepOut_afterProfile envs c n p (hwf n) with ⟨hp, hc2, hb⟩
      rcases ih (n + 1) with ⟨ih1, ih2, ih3⟩
      refine ⟨?_, ?_, ?_⟩
      · rw [hrw, foldl_runStep_cons, RunAcc.merge_profiles, hp, ih1]
        rfl
      · rw [hrw, foldl_runStep_cons, RunAcc.merge_changesMade, hc2, ih2]
        rfl
      · rw [hrw, foldl_runStep_cons, RunAcc.merge_allNewPosts, hb, ih3]
        rfl

theorem run_trace_of_quiet (envs : Nat → ProfEnv) (c : Clock) (ps : List ProfileData)
    (hch : (ps.enum.foldl (runStep envs c) RunAcc.init).changesMade = false)
    (hbuf : (ps.enum.foldl (runStep envs c) RunAcc.init).allNewPosts = []) :
    (runAntiDetectionMonitoring envs c ps).trace =
      (ps.enum.foldl (runStep envs c) RunAcc.init).trace := by
  show (let acc := ps.enum.foldl (runStep envs c) RunAcc.init
        let trace1 := if acc.changesMade then acc.trace ++ [Event.save acc.profiles] else acc.trace
        let trace2 := if acc.allNewPosts ≠ [] then trace1 ++ [Event.notify acc.allNewPosts] else trace1
        trace2) = _
  dsimp only
  rw [hch, hbuf]
  simp

/-! ## Lemmas for the fingerprint and the item cap -/

theorem hash_fold_of_signals :
    ∀ (a b : List PostData) (init : String),
    a.map postSignal = b.map postSignal →
    a.foldl (fun acc p => acc ++ p.post_title.take 30 ++ p.post_type) init =
      b.foldl (fun acc p => acc ++ p.post_title.take 30 ++ p.post_type) init := by
  intro a
  induction a with
  | nil =>
      intro b init h
      cases b with
      | nil => rfl
      | cons y ys => exact absurd h (by simp)
  | cons x xs ih =>
      intro b init h
      cases b with
      | nil => exact absurd h (by simp)
      | cons y ys =>
          simp only [List.map_cons, List.cons.injEq, postSignal, Prod.mk.injEq] at h
          obtain ⟨⟨h1, h2⟩, h3⟩ := h
          rw [List.foldl_cons, List.foldl_cons, h1, h2]
          exact ih ys _ h3

theorem extMatches_length_le (c : Clock) (profileName profileUrl : String) :
    ∀ (ms : List (String × String)) (posts : List PostData) (found : List String),
    posts.length < 2 →
    ((extMatches c profileName profileUrl ms posts found).1).length ≤ 2 := by
  intro ms
  induction ms with
  | nil =>
      intro posts found h
      show posts.length ≤ 2
      omega
  | cons m ms ih =>
      intro posts found h
      rcases m with ⟨identifier, content⟩
      unfold extMatches
      dsimp only
      split_ifs with hval hlen
      · simp only [List.length_append, List.length_singleton] at hlen ⊢
        omega
      · exact ih _ _ (by simp only [List.length_append, List.length_singleton] at hlen ⊢; omega)
      · exact ih _ _ h

theorem extractAuthenticContent_length_le (e : ProfEnv) (c : Clock)
    (html profileName profileUrl : String) :
    (extractAuthenticContent e c html profileName profileUrl).length ≤ 2 := by
  unfold extractAuthenticContent
  dsimp only
  split_ifs with h0 h1
  · exact extMatches_length_le c profileName profileUrl _ [] [] (by simp)
  · exact extMatches_length_le c profileName profileUrl _ _ _ (Nat.lt_of_not_le (by simpa using h0))
  · exact extMatches_length_le c profileName profileUrl _ _ _ (Nat.lt_of_not_le (by simpa using h1))

theorem extractOrGenerateContent_length_le (e : ProfEnv) (c : Clock)
    (html url name : String) (df : Bool) (hwf : e.Wf) :
    (extractOrGenerateContent e c html url name df).length ≤ 2 := by
  unfold extractOrGenerateContent
  dsimp only
  split_ifs
  · exact extractAuthenticContent_length_le e c html name url
  · rw [generateRealisticPosts_length e c hwf]
  · rw [generateRealisticPosts_length e c hwf]

/-! ## Concrete execution environments used by the refutations and witnesses

Each is a genuine execution of the source: `fetched` is the body the fetch
strategies produced (or `none` when they all failed); `findall` is the true
`re.findall` result of the three `authentic_patterns` on that body (all three
patterns require markup such as `<div …>`, `urn:li:activity:` or `<article …>`,
so on the plain-text pages used here they match nothing); `sample2` is one
realizable draw order of `random.sample` on a two-element list; `coin` and
`timeWord` fix the draws of `_personalize_content`. -/

def takeTwoSample : List GenTemplate → List GenTemplate := fun ts => ts.take 2

def revTwoSample : List GenTemplate → List GenTemplate := fun ts => (ts.take 2).reverse

theorem takeTwoSample_wf_parts :
    (∀ ts : List GenTemplate, (takeTwoSample ts).length = min 2 ts.length) ∧
    (∀ ts : List GenTemplate, ∀ t ∈ takeTwoSample ts, t ∈ ts) := by
  constructor
  · intro ts; simp [takeTwoSample]
  · intro ts t ht; exact List.take_subset 2 ts ht

theorem revTwoSample_wf_parts :
    (∀ ts : List GenTemplate, (revTwoSample ts).length = min 2 ts.length) ∧
    (∀ ts : List GenTemplate, ∀ t ∈ revTwoSample ts, t ∈ ts) := by
  constructor
  · intro ts; simp [revTwoSample]
  · intro ts t ht
    rw [revTwoSample, List.mem_reverse] at ht
    exact List.take_subset 2 ts ht

/-- A quiet environment: the fetch outcome is given, the regex engine finds no
post fragment, the sampler keeps list order, the personalization coin is
tails. -/
def quietEnv (fetched : Option String) : ProfEnv :=
  { fetched := fetched, findall := fun _ _ => [], sample2 := takeTwoSample,
    coin := fun _ => false, timeWord := fun _ => "récemment" }

theorem quietEnv_wf (fetched : Option String) : (quietEnv fetched).Wf :=
  ⟨takeTwoSample_wf_parts.1, takeTwoSample_wf_parts.2, fun _ => by simp [quietEnv]⟩

/-- Like `quietEnv` but `random.sample` drew the two templates in the other
order. -/
def quietEnvRev (fetched : Option String) : ProfEnv :=
  { fetched := fetched, findall := fun _ _ => [], sample2 := revTwoSample,
    coin := fun _ => false, timeWord := fun _ => "récemment" }

theorem quietEnvRev_wf (fetched : Option String) : (quietEnvRev fetched).Wf :=
  ⟨revTwoSample_wf_parts.1, revTwoSample_wf_parts.2, fun _ => by simp [quietEnvRev]⟩

/-- A fixed clock reading shared by the witnesses. -/
def tw0Clock : Clock :=
  { ymd := "20250110", ymdh := "2025011009", iso := "2025-01-10T09:00:00",
    full := "2025-01-10 09:00:00.000000", dmyhm := "10/01/2025 à 09:00" }

theorem stepOut_buffer_le (envs : Nat → ProfEnv) (c : Clock) (i : Nat) (p : ProfileData)
    (hwf : (envs i).Wf) : (stepOut envs c (i, p)).allNewPosts.length ≤ 2 := by
  by_cases h : p.error_count ≥ 5
  · rw [stepOut_skip _ _ _ _ h]
    simp
  · rw [stepOut_processed _ _ _ _ hwf h]
    split_ifs
    · show (analyzeWithIntelligentFallback (envs i) c ((envs i).fetched.getD "") p.url p.name
          (envs i).fetched.isNone).posts_data.length ≤ 2
      rw [analyze_posts_data]
      exact extractOrGenerateContent_length_le _ _ _ _ _ _ hwf
    · show ([] : List PostData).length ≤ 2
      simp

/-! ## Claim C10 -/

/-- C10: every profile check produces at most two content items: authentic
extraction breaks once two validated posts are collected, the generation
fallback samples at most two templates, and hence one loop iteration of the
run grows the accumulation buffer by at most two items. -/
theorem C10_item_cap (envs : Nat → ProfEnv) (c : Clock) (html url name : String)
    (df : Bool) (acc : RunAcc) (i : Nat) (p : ProfileData) (hwf : ∀ j, (envs j).Wf) :
    (extractAuthenticContent (envs i) c html name url).length ≤ 2 ∧
    (extractOrGenerateContent (envs i) c html url name df).length ≤ 2 ∧
    (runStep envs c acc (i, p)).allNewPosts.length ≤ acc.allNewPosts.length + 2 := by
  refine ⟨extractAuthenticContent_length_le _ _ _ _ _,
    extractOrGenerateContent_length_le _ _ _ _ _ _ (hwf i), ?_⟩
  rw [runStep_eq_merge, RunAcc.merge_allNewPosts, List.length_append]
  have := stepOut_buffer_le envs c i p (hwf i)
  omega

/-- C10 witness: the cap evaluated in a concrete quiet environment. -/
theorem C10_item_cap_witness :
    (extractAuthenticContent (quietEnv none) tw0Clock "" "W" "u").length ≤ 2 ∧
    (extractOrGenerateContent (quietEnv none) tw0Clock "" "u" "W" true).length ≤ 2 ∧
    (runStep (fun _ => quietEnv none) tw0Clock RunAcc.init
      (0, ProfileData.make tw0Clock.iso "u" "W")).allNewPosts.length ≤
        RunAcc.init.allNewPosts.length + 2 :=
  C10_item_cap (fun _ => quietEnv none) tw0Clock "" "u" "W" true RunAcc.init 0
    (ProfileData.make tw0Clock.iso "u" "W") (fun _ => quietEnv_wf none)

/-! ## Claim C3 -/

/-- C3 (amended): the fingerprint is a deterministic function of the profile
name, the canonical signal set (each post's 30-character title prefix and post
type, in extraction order) and the current date: two non-empty extraction
outputs with identical signal sets hashed under the same `%Y%m%d` date give the
same fingerprint, within a run and across runs.  (The counterexample shows the
date is genuinely one of the hash inputs, so stability does not extend across
distinct dates as the claim asserts.) -/
theorem C3_fingerprint_deterministic (c1 c2 : Clock) (name : String)
    (a b : List PostData) (df1 df2 : Bool) (hymd : c1.ymd = c2.ymd)
    (hsig : a.map postSignal = b.map postSignal) (hne : a ≠ []) :
    generateIntelligentHash c1 a name df1 = generateIntelligentHash c2 b name df2 := by
  have hbne : b ≠ [] := by
    intro hb
    rw [hb] at hsig
    simp at hsig
    exact hne hsig
  unfold generateIntelligentHash
  rw [if_pos hne, if_pos hbne]
  rw [hash_fold_of_signals a b _ hsig, hymd]

/-- A content item as the fingerprint generator sees one. -/
def scenC3Post : PostData :=
  { profile_name := "X", post_title := "Team expansion announcement today",
    post_description := "The team grows substantially this quarter.",
    post_url := "https://www.linkedin.com/company/x/posts/",
    detection_time := "01/01/2025 à 09:00", post_id := "1234567890",
    post_type := "publication", source_method := "authentic_extraction" }

def scenC3Clock1 : Clock :=
  { ymd := "20250101", ymdh := "2025010109", iso := "2025-01-01T09:00:00",
    full := "2025-01-01 09:00:00.000000", dmyhm := "01/01/2025 à 09:00" }

def scenC3Clock2 : Clock :=
  { ymd := "20250102", ymdh := "2025010209", iso := "2025-01-02T09:00:00",
    full := "2025-01-02 09:00:00.000000", dmyhm := "02/01/2025 à 09:00" }

/-- C3 witness: the stability theorem applied at a concrete signal set. -/
theorem C3_fingerprint_deterministic_witness :
    generateIntelligentHash scenC3Clock1 [scenC3Post] "X" false =
      generateIntelligentHash scenC3Clock1 [scenC3Post] "X" false :=
  C3_fingerprint_deterministic scenC3Clock1 scenC3Clock1 "X" [scenC3Post] [scenC3Post]
    false false rfl rfl (by simp)

/-- C3 counterexample: the same extraction output (hence an identical canonical
signal set) fingerprinted in two runs one day apart yields two different
fingerprints — `_generate_intelligent_hash` feeds `datetime.now().strftime('%Y%m%d')`
into the digest, so the fingerprint is not independent of wall-clock time
across runs. -/
theorem C3_counterexample :
    ([scenC3Post].map postSignal = [scenC3Post].map postSignal) ∧
    generateIntelligentHash scenC3Clock1 [scenC3Post] "X" false = "8eecab9f980e490c0a14" ∧
    generateIntelligentHash scenC3Clock2 [scenC3Post] "X" false = "f71810c1049930e503ec" ∧
    generateIntelligentHash scenC3Clock1 [scenC3Post] "X" false ≠
      generateIntelligentHash scenC3Clock2 [scenC3Post] "X" false := by
  refine ⟨rfl, by decide, by decide, by decide⟩

/-! ## Claim C9 -/

/-- C9 (amended): the process always terminates with exit status 0, whatever
happens — `main` calls `sys.exit(0)` on success, on an unsuccessful run, and in
its top-level exception handler (the source comments the latter two with
avoiding CI failures).  A run that cannot process any profile therefore does
not exit non-zero; failure is reported only through diagnostics. -/
theorem C9_always_exit_zero (getenv : String → Option String) (envs : Nat → ProfEnv)
    (c : Clock) (rows : List CsvRow) : mainExitCode getenv envs c rows = 0 := by
  unfold mainExitCode
  cases h : validateEnvironment getenv with
  | none => rfl
  | some cfg => simp

/-- C9 counterexample: a configuration failure (no mail variables set) and a
run with no profiles at all both exit with status 0, where the claim requires a
non-zero completion status. -/
theorem C9_counterexample :
    validateEnvironment (fun _ => none) = none ∧
    mainExitCode (fun _ => none) (fun _ => quietEnv none) tw0Clock [] = 0 ∧
    (runAntiDetectionMonitoring (fun _ => quietEnv none) tw0Clock
      (loadProfiles tw0Clock.iso [])).ok = false ∧
    mainExitCode (fun _ => some "cfg") (fun _ => quietEnv none) tw0Clock [] = 0 :=
  ⟨rfl, rfl, rfl, rfl⟩

/-! ## Claim C8 -/

/-- Modelled from the spec: "URL not matching accepted target patterns" — the
accepted target patterns of the monitored source are the company and personal
profile URL shapes the pipeline's URL handling recognises. -/
def specAcceptedTargetUrl (url : String) : Bool :=
  pyContains url "linkedin.com/company/" || pyContains url "linkedin.com/in/"

/-- C8 (amended): `_parse_row` keeps a record iff its stripped URL and name are
non-empty and its error count parses (absent or empty counts default to 0);
rejected records are dropped without aborting the load.  No URL-pattern
validation is performed. -/
theorem C8_load_validation (nowIso : String) (row : CsvRow) :
    (∀ p, parseRow nowIso row = some p →
      pyStrip row.url ≠ "" ∧ pyStrip row.name ≠ "" ∧
      p = ProfileData.make nowIso row.url row.name row.lastPostId p.error_count) ∧
    (parseRow nowIso row = none →
      ∀ rows, loadProfiles nowIso (row :: rows) = loadProfiles nowIso rows) := by
  constructor
  · intro p hp
    unfold parseRow at hp
    rcases hec : (match row.errorCount with
      | none => some 0
      | some s => if s = "" then some 0 else pyInt s) with _ | n
    · rw [hec] at hp
      exact absurd hp (by simp)
    · rw [hec] at hp
      dsimp only at hp
      by_cases hcond : pyStrip row.url ≠ "" ∧ pyStrip row.name ≠ ""
      · rw [if_pos (by simpa using hcond)] at hp
        injection hp with hp
        refine ⟨hcond.1, hcond.2, ?_⟩
        rw [← hp]
        rfl
      · rw [if_neg (by simpa using hcond)] at hp
        exact absurd hp (by simp)
  · intro hnone rows
    unfold loadProfiles
    rw [List.filterMap_cons_none hnone]

/-- A record whose URL matches no accepted target pattern. -/
def scenC8Row : CsvRow :=
  { url := "ftp://example.org/not-a-profile", name := "Bogus", lastPostId := "",
    errorCount := none }

/-- C8 witness: the load validation applied to a concrete malformed record
(empty URL), which is dropped without failing the load. -/
theorem C8_load_validation_witness :
    loadProfiles "2025-01-10T09:00:00"
      ({ url := " ", name := "NoUrl", lastPostId := "", errorCount := none } :: []) =
      loadProfiles "2025-01-10T09:00:00" [] :=
  (C8_load_validation "2025-01-10T09:00:00"
    { url := " ", name := "NoUrl", lastPostId := "", errorCount := none }).2 (by decide) []

/-- C8 counterexample: a record whose URL is well short of any accepted target
pattern is not dropped — `_parse_row` only checks that URL and name are
non-empty — so a profile with an invalid URL does reach the checking
pipeline. -/
theorem C8_counterexample :
    parseRow "2025-01-10T09:00:00" scenC8Row =
      some (ProfileData.make "2025-01-10T09:00:00" "ftp://example.org/not-a-profile" "Bogus" "" 0) ∧
    loadProfiles "2025-01-10T09:00:00" [scenC8Row] =
      [ProfileData.make "2025-01-10T09:00:00" "ftp://example.org/not-a-profile" "Bogus" "" 0] ∧
    specAcceptedTargetUrl "ftp://example.org/not-a-profile" = false := by
  refine ⟨by decide, by decide, by decide⟩

/-! ## Claim C1 -/

/-- Shared core: on the fallback path `extract_or_generate_content` returns
the generated posts, of which there are exactly two, all marked
`intelligent_generation`. -/
theorem fallbackGeneratesCore (e : ProfEnv) (c : Clock) (html url name : String)
    (df : Bool) (hwf : e.Wf)
    (hfb : df = true ∨ html = "" ∨ extractAuthenticContent e c html name url = []) :
    extractOrGenerateContent e c html url name df = generateRealisticPosts e c name url ∧
    (extractOrGenerateContent e c html url name df).length = 2 ∧
    ∀ p ∈ extractOrGenerateContent e c html url name df,
      p.source_method = "intelligent_generation" := by
  have hgen : extractOrGenerateContent e c html url name df =
      generateRealisticPosts e c name url := by
    unfold extractOrGenerateContent
    dsimp only
    rcases hfb with hdf | hhtml | hreal
    · rw [hdf]
      simp
    · rw [hhtml]
      simp
    · split_ifs with h1 h2
      · exact absurd hreal h2
      · rfl
      · rfl
  refine ⟨hgen, by rw [hgen]; exact generateRealisticPosts_length e c hwf name url, ?_⟩
  intro p hp
  rw [hgen] at hp
  unfold generateRealisticPosts at hp
  rcases List.mem_map.1 hp with ⟨it, _, hit⟩
  rw [← hit]
  rfl

/-- C1 (amended): when no extraction strategy yields a validated item (the
detection failed, the body is empty, or authentic extraction returns nothing),
`extract_or_generate_content` does not emit zero items and no fingerprint-only
signature: it falls back to `generate_realistic_posts` and emits exactly two
generated content items, all marked `intelligent_generation`, which the run
then appends to the accumulation buffer and surfaces in the notification like
any other items. -/
theorem C1_fallback_generates (e : ProfEnv) (c : Clock) (html url name : String)
    (df : Bool) (hwf : e.Wf)
    (hfb : df = true ∨ html = "" ∨ extractAuthenticContent e c html name url = []) :
    extractOrGenerateContent e c html url name df = generateRealisticPosts e c name url ∧
    (extractOrGenerateContent e c html url name df).length = 2 ∧
    ∀ p ∈ extractOrGenerateContent e c html url name df,
      p.source_method = "intelligent_generation" :=
  fallbackGeneratesCore e c html url name df hwf hfb

def scenC1Clock : Clock :=
  { ymd := "20250102", ymdh := "2025010209", iso := "2025-01-02T09:00:00",
    full := "2025-01-02 09:00:00.000000", dmyhm := "02/01/2025 à 09:00" }

def scenC1Profile : ProfileData :=
  { url := "https://www.globex.example/page", name := "Globex", last_post_id := "",
    error_count := 0, last_check := "2025-01-02T09:00:00", last_success := none }

/-- C1 witness: the fallback applied to a concrete fetched body containing no
post fragment. -/
theorem C1_fallback_generates_witness :
    extractOrGenerateContent (quietEnv (some "plain text page")) scenC1Clock
        "plain text page" "https://www.globex.example/page" "Globex" false =
      generateRealisticPosts (quietEnv (some "plain text page")) scenC1Clock
        "Globex" "https://www.globex.example/page" ∧
    (extractOrGenerateContent (quietEnv (some "plain text page")) scenC1Clock
        "plain text page" "https://www.globex.example/page" "Globex" false).length = 2 ∧
    ∀ p ∈ extractOrGenerateContent (quietEnv (some "plain text page")) scenC1Clock
        "plain text page" "https://www.globex.example/page" "Globex" false,
      p.source_method = "intelligent_generation" :=
  C1_fallback_generates (quietEnv (some "plain text page")) scenC1Clock
    "plain text page" "https://www.globex.example/page" "Globex" false
    (quietEnv_wf (some "plain text page")) (Or.inr (Or.inr (by decide)))

/-- The run over profile "Globex" whose fetched body contains no validated
post fragment. -/
def scenC1Run : RunResult :=
  runAntiDetectionMonitoring (fun _ => quietEnv (some "plain text page")) scenC1Clock
    [scenC1Profile]

/-- Full evaluation of `scenC1Run` (checked by the kernel). -/
theorem scenC1Run_eval : scenC1Run =
  { profiles := [{ url := "https://www.globex.example/page",
                   name := "Globex",
                   last_post_id := "233b6e2bd1d56932d069",
                   error_count := 0,
                   last_check := "2025-01-02T09:00:00",
                   last_success := some "2025-01-02T09:00:00" }],
    buffer := [{ profile_name := "Globex",
                 post_title := "Actualités et développements récents",
                 post_description := "Dernières nouvelles et évolutions importantes de l'entreprise à ne pas manquer.",
                 post_url := "https://www.globex.example/page",
                 detection_time := "02/01/2025 à 09:00",
                 post_id := "b541cba50f55",
                 post_type := "actualite",
                 source_method := "intelligent_generation" },
               { profile_name := "Globex",
                 post_title := "Innovation et stratégie d'entreprise",
                 post_description := "Présentation des dernières innovations et de la vision stratégique pour l'avenir.",
                 post_url := "https://www.globex.example/page",
                 detection_time := "02/01/2025 à 09:00",
                 post_id := "1b72c29285c9",
                 post_type := "strategie",
                 source_method := "intelligent_generation" }],
    trace := [Event.check 0,
              Event.save
                [{ url := "https://www.globex.example/page",
                   name := "Globex",
                   last_post_id := "233b6e2bd1d56932d069",
                   error_count := 0,
                   last_check := "2025-01-02T09:00:00",
                   last_success := some "2025-01-02T09:00:00" }],
              Event.notify
                [{ profile_name := "Globex",
                   post_title := "Actualités et développements récents",
                   post_description := "Dernières nouvelles et évolutions importantes de l'entreprise à ne pas manquer.",
                   post_url := "https://www.globex.example/page",
                   detection_time := "02/01/2025 à 09:00",
                   post_id := "b541cba50f55",
                   post_type := "actualite",
                   source_method := "intelligent_generation" },
                 { profile_name := "Globex",
                   post_title := "Innovation et stratégie d'entreprise",
                   post_description := "Présentation des dernières innovations et de la vision stratégique pour l'avenir.",
                   post_url := "https://www.globex.example/page",
                   detection_time := "02/01/2025 à 09:00",
                   post_id := "1b72c29285c9",
                   post_type := "strategie",
                   source_method := "intelligent_generation" }]],
    changesMade := true,
    success := 1,
    changes := 1,
    errors := 0,
    generatedPosts := 2,
    authenticPosts := 0,
    ok := true } := by
  rfl

/-- C1 counterexample: a successful fetch of a body in which no strategy yields
a validated item.  The extractor emits two `ContentItem`s (the claim requires
zero), the run appends both to its accumulation buffer, and the notification
event carries them. -/
theorem C1_counterexample :
    extractAuthenticContent (quietEnv (some "plain text page")) scenC1Clock
      "plain text page" "Globex" "https://www.globex.example/page" = [] ∧
    scenC1Run.buffer.length = 2 ∧
    (∀ p ∈ scenC1Run.buffer, p.source_method = "intelligent_generation") ∧
    Event.notify scenC1Run.buffer ∈ scenC1Run.trace := by
  rw [scenC1Run_eval]
  refine ⟨by decide, by decide, by decide, by decide⟩

/-! ## Claim C2 -/

/-- C2 (amended): for a profile whose fetch attempts all fail, the check does
not increment `error_count` and does not leave the profile untouched: the
analysis falls back to intelligent generation, which yields two generated
posts, so `error_count` is reset to 0, `last_success` is stamped, and the
fingerprint of the generated content is handed to the run for comparison
(whereupon items are accumulated and notified as for any change). -/
theorem C2_fetchfail_resets (e : ProfEnv) (c : Clock) (p : ProfileData)
    (hwf : e.Wf) (hfail : e.fetched = none) :
    checkProfileWithAntiDetection e c p =
      (some (analyzeWithIntelligentFallback e c "" p.url p.name true),
       { p with error_count := 0, last_success := some c.iso }) ∧
    (analyzeWithIntelligentFallback e c "" p.url p.name true).posts_data.length = 2 ∧
    (analyzeWithIntelligentFallback e c "" p.url p.name true).detection_method =
      "intelligent_fallback" ∧
    (analyzeWithIntelligentFallback e c "" p.url p.name true).posts_data =
      generateRealisticPosts e c p.name p.url := by
  have h1 := checkProfile_succeeds e c p hwf
  rw [hfail] at h1
  refine ⟨h1, ?_, rfl, ?_⟩
  · rw [analyze_posts_data]
    exact (fallbackGeneratesCore e c "" p.url p.name true hwf (Or.inl rfl)).2.1
  · rw [analyze_posts_data]
    exact (fallbackGeneratesCore e c "" p.url p.name true hwf (Or.inl rfl)).1

def scenC2Clock : Clock :=
  { ymd := "20250101", ymdh := "2025010109", iso := "2025-01-01T09:00:00",
    full := "2025-01-01 09:00:00.000000", dmyhm := "01/01/2025 à 09:00" }

def scenC2Profile : ProfileData :=
  { url := "https://www.acme.example/corp", name := "Acme", last_post_id := "",
    error_count := 0, last_check := "2025-01-01T09:00:00", last_success := none }

/-- C2 witness: the fetch-failure behaviour at a concrete profile and
environment. -/
theorem C2_fetchfail_resets_witness :
    checkProfileWithAntiDetection (quietEnv none) scenC2Clock scenC2Profile =
      (some (analyzeWithIntelligentFallback (quietEnv none) scenC2Clock ""
        scenC2Profile.url scenC2Profile.name true),
       { scenC2Profile with error_count := 0, last_success := some scenC2Clock.iso }) ∧
    (analyzeWithIntelligentFallback (quietEnv none) scenC2Clock ""
      scenC2Profile.url scenC2Profile.name true).posts_data.length = 2 ∧
    (analyzeWithIntelligentFallback (quietEnv none) scenC2Clock ""
      scenC2Profile.url scenC2Profile.name true).detection_method =
      "intelligent_fallback" ∧
    (analyzeWithIntelligentFallback (quietEnv none) scenC2Clock ""
      scenC2Profile.url scenC2Profile.name true).posts_data =
      generateRealisticPosts (quietEnv none) scenC2Clock
        scenC2Profile.name scenC2Profile.url :=
  C2_fetchfail_resets (quietEnv none) scenC2Clock scenC2Profile
    (quietEnv_wf none) rfl

/-- The run over profile "Acme" with every fetch attempt failing. -/
def scenC2Run : RunResult :=
  runAntiDetectionMonitoring (fun _ => quietEnv none) scenC2Clock [scenC2Profile]

/-- Full evaluation of `scenC2Run` (checked by the kernel). -/
theorem scenC2Run_eval : scenC2Run =
  { profiles := [{ url := "https://www.acme.example/corp",
                   name := "Acme",
                   last_post_id := "efd3e6e89349c1d7169c",
                   error_count := 0,
                   last_check := "2025-01-01T09:00:00",
                   last_success := some "2025-01-01T09:00:00" }],
    buffer := [{ profile_name := "Acme",
                 post_title := "Actualités et développements récents",
                 post_description := "Dernières nouvelles et évolutions importantes de l'entreprise à ne pas manquer.",
                 post_url := "https://www.acme.example/corp",
                 detection_time := "01/01/2025 à 09:00",
                 post_id := "5b01b38825fe",
                 post_type := "actualite",
                 source_method := "intelligent_generation" },
               { profile_name := "Acme",
                 post_title := "Innovation et stratégie d'entreprise",
                 post_description := "Présentation des dernières innovations et de la vision stratégique pour l'avenir.",
                 post_url := "https://www.acme.example/corp",
                 detection_time := "01/01/2025 à 09:00",
                 post_id := "4f58f1d965d0",
                 post_type := "strategie",
                 source_method := "intelligent_generation" }],
    trace := [Event.check 0,
              Event.save
                [{ url := "https://www.acme.example/corp",
                   name := "Acme",
                   last_post_id := "efd3e6e89349c1d7169c",
                   error_count := 0,
                   last_check := "2025-01-01T09:00:00",
                   last_success := some "2025-01-01T09:00:00" }],
              Event.notify
                [{ profile_name := "Acme",
                   post_title := "Actualités et développements récents",
                   post_description := "Dernières nouvelles et évolutions importantes de l'entreprise à ne pas manquer.",
                   post_url := "https://www.acme.example/corp",
                   detection_time := "01/01/2025 à 09:00",
                   post_id := "5b01b38825fe",
                   post_type := "actualite",
                   source_method := "intelligent_generation" },
                 { profile_name := "Acme",
                   post_title := "Innovation et stratégie d'entreprise",
                   post_description := "Présentation des dernières innovations et de la vision stratégique pour l'avenir.",
                   post_url := "https://www.acme.example/corp",
                   detection_time := "01/01/2025 à 09:00",
                   post_id := "4f58f1d965d0",
                   post_type := "strategie",
                   source_method := "intelligent_generation" }]],
    changesMade := true,
    success := 1,
    changes := 1,
    errors := 0,
    generatedPosts := 2,
    authenticPosts := 0,
    ok := true } := by
  rfl

/-- C2 counterexample: all fetch attempts for profile "Acme" fail, yet the
run does not increment its failure count by 1 (it resets it to 0), performs
the fingerprint comparison against the generated content (updating
`last_post_id` from `""` to the generated-content digest), accumulates two
items for the profile, and the notification event carries them. -/
theorem C2_counterexample :
    scenC2Run.profiles.map (fun q => q.error_count) = [0] ∧
    scenC2Profile.error_count + 1 = 1 ∧
    scenC2Run.profiles.map (fun q => q.last_post_id) = ["efd3e6e89349c1d7169c"] ∧
    scenC2Profile.last_post_id = "" ∧
    scenC2Run.buffer.length = 2 ∧
    Event.notify scenC2Run.buffer ∈ scenC2Run.trace := by
  rw [scenC2Run_eval]
  refine ⟨by decide, by decide, by decide, rfl, by decide, by decide⟩

/-! ## Claim C6 -/

def isNotifyEvent : Event → Bool
  | Event.notify _ => true
  | _ => false

def isSaveEvent : Event → Bool
  | Event.save _ => true
  | _ => false

theorem countP_zero_of_checks {t0 : List Event} (h : ∀ ev ∈ t0, ∃ i, ev = Event.check i)
    (f : Event → Bool) (hf : ∀ i, f (Event.check i) = false) : t0.countP f = 0 := by
  rw [List.countP_eq_zero]
  intro ev hev
  rcases h ev hev with ⟨i, rfl⟩
  simp [hf i]

/-- C6: notification composition and dispatch happen exactly once per run when
the accumulation buffer is non-empty and never otherwise; every notification
event carries the whole (non-empty) buffer, so one batched message covers all
changed profiles and the composer is never invoked with an empty item list
(`send_ultra_modern_notification` additionally guards the empty case itself,
composing nothing). -/
theorem C6_single_batched_notification (envs : Nat → ProfEnv) (c : Clock)
    (ps : List ProfileData) :
    ((runAntiDetectionMonitoring envs c ps).trace.countP isNotifyEvent =
      if (runAntiDetectionMonitoring envs c ps).buffer = [] then 0 else 1) ∧
    (∀ posts, Event.notify posts ∈ (runAntiDetectionMonitoring envs c ps).trace →
      posts = (runAntiDetectionMonitoring envs c ps).buffer ∧ posts ≠ []) ∧
    sendUltraModernNotification [] = (true, 0) ∧
    (∀ posts, posts ≠ [] → sendUltraModernNotification posts = (true, 1)) := by
  rcases run_trace_shape envs c ps with ⟨t0, _, ht0, htr⟩
  refine ⟨?_, ?_, rfl, ?_⟩
  · rw [htr, List.countP_append, List.countP_append]
    rw [countP_zero_of_checks ht0 isNotifyEvent (fun _ => rfl)]
    by_cases hch : (runAntiDetectionMonitoring envs c ps).changesMade
    all_goals by_cases hbuf : (runAntiDetectionMonitoring envs c ps).buffer = []
    all_goals simp [hch, hbuf, isNotifyEvent]
  · intro posts hmem
    rw [htr] at hmem
    simp only [List.mem_append] at hmem
    rcases hmem with (hmem | hmem) | hmem
    · rcases ht0 _ hmem with ⟨i, hi⟩
      exact absurd hi (by simp)
    · by_cases hch : (runAntiDetectionMonitoring envs c ps).changesMade
      · rw [if_pos hch] at hmem
        simp at hmem
      · rw [if_neg hch] at hmem
        simp at hmem
    · by_cases hbuf : (runAntiDetectionMonitoring envs c ps).buffer = []
      · rw [if_pos hbuf] at hmem
        simp at hmem
      · rw [if_neg hbuf] at hmem
        simp at hmem
        exact ⟨hmem, hmem ▸ hbuf⟩
  · intro posts hne
    unfold sendUltraModernNotification
    rw [if_neg hne]

/-! ## Claim C5 -/

theorem run_changes_eq (envs : Nat → ProfEnv) (c : Clock) (ps : List ProfileData) :
    (runAntiDetectionMonitoring envs c ps).changes =
      (ps.enum.foldl (runStep envs c) RunAcc.init).changes := rfl

/-- C5 (amended): state persistence is a single batched write, performed after
all profiles are processed, exactly when some profile's fingerprint changed
(`changes > 0`); the write always carries the complete final profile set.
A state mutation that changes only `error_count` (for example a reset to 0 on
an unchanged fingerprint) does not trigger a write — the counterexample shows
such a changed state going unpersisted, against the claim's "if any profile's
state changed". -/
theorem C5_single_batched_save (envs : Nat → ProfEnv) (c : Clock) (ps : List ProfileData) :
    (∃ t0 : List Event,
      (∀ ev ∈ t0, ∃ i, ev = Event.check i) ∧
      (runAntiDetectionMonitoring envs c ps).trace =
        t0 ++
        (if (runAntiDetectionMonitoring envs c ps).changesMade then
          [Event.save (runAntiDetectionMonitoring envs c ps).profiles] else []) ++
        (if (runAntiDetectionMonitoring envs c ps).buffer = [] then []
         else [Event.notify (runAntiDetectionMonitoring envs c ps).buffer])) ∧
    ((runAntiDetectionMonitoring envs c ps).trace.countP isSaveEvent =
      if (runAntiDetectionMonitoring envs c ps).changesMade then 1 else 0) ∧
    ((runAntiDetectionMonitoring envs c ps).changesMade = true ↔
      (runAntiDetectionMonitoring envs c ps).changes > 0) ∧
    (∀ qs, Event.save qs ∈ (runAntiDetectionMonitoring envs c ps).trace →
      qs = (runAntiDetectionMonitoring envs c ps).profiles) := by
  rcases run_trace_shape envs c ps with ⟨t0, _, ht0, htr⟩
  refine ⟨⟨t0, ht0, htr⟩, ?_, ?_, ?_⟩
  · rw [htr, List.countP_append, List.countP_append]
    rw [countP_zero_of_checks ht0 isSaveEvent (fun _ => rfl)]
    by_cases hch : (runAntiDetectionMonitoring envs c ps).changesMade
    all_goals by_cases hbuf : (runAntiDetectionMonitoring envs c ps).buffer = []
    all_goals simp [hch, hbuf, isSaveEvent]
  · rw [run_changesMade_eq, run_changes_eq]
    exact fold_changed_iff envs c ps.enum
  · intro qs hmem
    rw [htr] at hmem
    simp only [List.mem_append] at hmem
    rcases hmem with (hmem | hmem) | hmem
    · rcases ht0 _ hmem with ⟨i, hi⟩
      exact absurd hi (by simp)
    · by_cases hch : (runAntiDetectionMonitoring envs c ps).changesMade
      · rw [if_pos hch] at hmem
        simp at hmem
        exact hmem
      · rw [if_neg hch] at hmem
        simp at hmem
    · by_cases hbuf : (runAntiDetectionMonitoring envs c ps).buffer = []
      · rw [if_pos hbuf] at hmem
        simp at hmem
      · rw [if_neg hbuf] at hmem
        simp at hmem

def scenC5Clock : Clock :=
  { ymd := "20250104", ymdh := "2025010409", iso := "2025-01-04T09:00:00",
    full := "2025-01-04 09:00:00.000000", dmyhm := "04/01/2025 à 09:00" }

/-- A profile whose stored fingerprint already equals the digest the failed
check will compute this day, with a non-zero failure count. -/
def scenC5Profile : ProfileData :=
  { url := "https://www.hooli.example/co", name := "Hooli",
    last_post_id := "55f5be860cf717319bbc", error_count := 3,
    last_check := "2025-01-04T09:00:00", last_success := none }

/-- The run over profile "Hooli" with every fetch attempt failing and the
stored fingerprint already matching the day's generated content. -/
def scenC5Run : RunResult :=
  runAntiDetectionMonitoring (fun _ => quietEnv none) scenC5Clock [scenC5Profile]

/-- Full evaluation of `scenC5Run` (checked by the kernel). -/
theorem scenC5Run_eval : scenC5Run =
  { profiles := [{ url := "https://www.hooli.example/co",
                   name := "Hooli",
                   last_post_id := "55f5be860cf717319bbc",
                   error_count := 0,
                   last_check := "2025-01-04T09:00:00",
                   last_success := some "2025-01-04T09:00:00" }],
    buffer := [],
    trace := [Event.check 0],
    changesMade := false,
    success := 1,
    changes := 0,
    errors := 0,
    generatedPosts := 2,
    authenticPosts := 0,
    ok := true } := by
  rfl

/-- C5 counterexample: the check resets this profile's `error_count` from 3 to
0 — a state change — but since the computed fingerprint equals the stored one,
`changes_made` stays false and no save is performed at all: a run whose only
state change is an error-count mutation persists nothing, so the claim "if any
profile's state changed, the complete profile state set is persisted exactly
once" fails on the code. -/
theorem C5_counterexample :
    scenC5Profile.error_count = 3 ∧
    scenC5Run.profiles.map (fun q => q.error_count) = [0] ∧
    scenC5Run.profiles.map (fun q => q.last_post_id) = ["55f5be860cf717319bbc"] ∧
    scenC5Run.changesMade = false ∧
    scenC5Run.trace.countP isSaveEvent = 0 := by
  rw [scenC5Run_eval]
  refine ⟨rfl, by decide, by decide, by decide, by decide⟩

/-! ## Claim C7 -/

theorem run_trace_check_mem (envs : Nat → ProfEnv) (c : Clock) (ps : List ProfileData)
    (i : Nat) (h : Event.check i ∈ (runAntiDetectionMonitoring envs c ps).trace) :
    Event.check i ∈ (ps.enum.foldl (runStep envs c) RunAcc.init).trace := by
  rcases run_trace_shape envs c ps with ⟨t0, ht0eq, _, htr⟩
  rw [htr] at h
  simp only [List.mem_append] at h
  rcases h with (h | h) | h
  · rw [← ht0eq]
    exact h
  · by_cases hch : (runAntiDetectionMonitoring envs c ps).changesMade
    · rw [if_pos hch] at h
      simp at h
    · rw [if_neg hch] at h
      simp at h
  · by_cases hbuf : (runAntiDetectionMonitoring envs c ps).buffer = []
    · rw [if_pos hbuf] at h
      simp at h
    · rw [if_neg hbuf] at h
      simp at h

/-- C7: a profile whose `consecutive_failures` reached the ceiling at the start
of a run is skipped entirely — its stored state comes out of the run unchanged
and no check event for it ever appears in the run's trace — and the run's
overall success is decided solely by the existence of some non-skipped profile,
so a skipped profile never fails the run. -/
theorem C7_skip_isolation (envs : Nat → ProfEnv) (c : Clock) (ps : List ProfileData)
    (i : Nat) (hwf : ∀ j, (envs j).Wf) (hi : i < ps.length)
    (hskip : (ps.get ⟨i, hi⟩).error_count ≥ 5) :
    (runAntiDetectionMonitoring envs c ps).profiles.length = ps.length ∧
    (runAntiDetectionMonitoring envs c ps).profiles.get? i = some (ps.get ⟨i, hi⟩) ∧
    Event.check i ∉ (runAntiDetectionMonitoring envs c ps).trace ∧
    ((runAntiDetectionMonitoring envs c ps).ok = true ↔
      ∃ j, ∃ hj : j < ps.length, (ps.get ⟨j, hj⟩).error_count < 5) := by
  have hprof : (runAntiDetectionMonitoring envs c ps).profiles = passOne envs c 0 ps := by
    rw [run_profiles_eq]
    exact fold_profiles envs c hwf ps 0
  have hlen : (runAntiDetectionMonitoring envs c ps).profiles.length = ps.length := by
    rw [hprof, passOne_length]
  refine ⟨hlen, ?_, ?_, ?_⟩
  · have hlt : i < (passOne envs c 0 ps).length := by
      rw [passOne_length]
      exact hi
    rw [hprof, List.get?_eq_get hlt]
    have := passOne_get envs c ps 0 i hi
    rw [this]
    have hafter : afterProfile envs c (0 + i) (ps.get ⟨i, hi⟩) = ps.get ⟨i, hi⟩ := by
      unfold afterProfile
      rw [if_pos hskip]
    rw [hafter]
  · intro hmem
    have hm2 := run_trace_check_mem envs c ps i hmem
    rcases check_mem_trace_imp envs c i ps 0 hm2 with ⟨k, hk, hki, hproc⟩
    have : k = i := by omega
    subst this
    exact hproc hskip
  · rw [run_ok_eq]
    have hsucc := fold_success_count envs c hwf ps 0
    have hgen0 := fold_success_zero_generated envs c hwf ps 0
    rw [show List.enumFrom 0 ps = ps.enum from rfl] at hsucc hgen0
    have hiff : 0 < ps.countP (fun p => decide (p.error_count < 5)) ↔
        ∃ j, ∃ hj : j < ps.length, (ps.get ⟨j, hj⟩).error_count < 5 := by
      rw [List.countP_pos_iff]
      constructor
      · rintro ⟨a, ha, hpa⟩
        rcases List.mem_iff_get.1 ha with ⟨⟨j, hj⟩, rfl⟩
        exact ⟨j, hj, by simpa using hpa⟩
      · rintro ⟨j, hj, hlt⟩
        exact ⟨ps.get ⟨j, hj⟩, List.get_mem ps j hj, by simpa using hlt⟩
    constructor
    · intro h
      simp only [Bool.or_eq_true, decide_eq_true_eq] at h
      rcases h with h | h
      · rw [hsucc] at h
        exact hiff.1 h
      · have hs : (ps.enum.foldl (runStep envs c) RunAcc.init).success ≠ 0 := by
          intro h0
          rw [hgen0 h0] at h
          omega
        rw [hsucc] at hs
        exact hiff.1 (Nat.pos_of_ne_zero hs)
    · intro h
      simp only [Bool.or_eq_true, decide_eq_true_eq]
      left
      rw [hsucc]
      exact hiff.2 h

/-- A profile past the failure ceiling. -/
def scenC7Profile : ProfileData :=
  { url := "https://www.broken.example/x", name := "Broken", last_post_id := "old",
    error_count := 7, last_check := "2025-01-10T09:00:00", last_success := none }

/-- C7 witness: a run over one skipped profile — untouched, unfetched, and the
run reports failure only because no other profile exists. -/
theorem C7_skip_isolation_witness :
    (runAntiDetectionMonitoring (fun _ => quietEnv none) tw0Clock
      [scenC7Profile]).profiles.length = [scenC7Profile].length ∧
    (runAntiDetectionMonitoring (fun _ => quietEnv none) tw0Clock
      [scenC7Profile]).profiles.get? 0 = some ([scenC7Profile].get ⟨0, by decide⟩) ∧
    Event.check 0 ∉ (runAntiDetectionMonitoring (fun _ => quietEnv none) tw0Clock
      [scenC7Profile]).trace ∧
    ((runAntiDetectionMonitoring (fun _ => quietEnv none) tw0Clock
      [scenC7Profile]).ok = true ↔
      ∃ j, ∃ hj : j < [scenC7Profile].length,
        ([scenC7Profile].get ⟨j, hj⟩).error_count < 5) :=
  C7_skip_isolation (fun _ => quietEnv none) tw0Clock [scenC7Profile] 0
    (fun _ => quietEnv_wf none) (by decide) (by decide)

/-! ## Claim C4 -/

/-- C4 (amended): re-running the pipeline on the state a run left behind is
idempotent provided the second run sees the **same environment** — the same
fetched bodies, the same wall-clock date, and the same `random` draws: every
profile's `last_post_id` already equals the fingerprint the check recomputes,
so the second run mutates no fingerprint, accumulates nothing, performs no
save and dispatches no notification.  (The counterexample shows the proviso is
essential: with unchanged remote content but a fresh `random.sample` order the
second run re-notifies, because the generation fallback feeds random draws and
the date into the fingerprint.) -/
theorem C4_second_run_idempotent (envs : Nat → ProfEnv) (c : Clock)
    (ps : List ProfileData) (hwf : ∀ j, (envs j).Wf) :
    (runAntiDetectionMonitoring envs c
      (runAntiDetectionMonitoring envs c ps).profiles).profiles =
      (runAntiDetectionMonitoring envs c ps).profiles ∧
    (runAntiDetectionMonitoring envs c
      (runAntiDetectionMonitoring envs c ps).profiles).buffer = [] ∧
    (runAntiDetectionMonitoring envs c
      (runAntiDetectionMonitoring envs c ps).profiles).changesMade = false ∧
    (∀ posts, Event.notify posts ∉ (runAntiDetectionMonitoring envs c
      (runAntiDetectionMonitoring envs c ps).profiles).trace) ∧
    (∀ qs, Event.save qs ∉ (runAntiDetectionMonitoring envs c
      (runAntiDetectionMonitoring envs c ps).profiles).trace) := by
  have h1 : (runAntiDetectionMonitoring envs c ps).profiles = passOne envs c 0 ps := by
    rw [run_profiles_eq]
    exact fold_profiles envs c hwf ps 0
  rcases fold_pass2 envs c hwf ps 0 with ⟨hpr, hch, hbuf⟩
  rw [show List.enumFrom 0 (passOne envs c 0 ps) = (passOne envs c 0 ps).enum from rfl]
    at hpr hch hbuf
  have htr : (runAntiDetectionMonitoring envs c (passOne envs c 0 ps)).trace =
      ((passOne envs c 0 ps).enum.foldl (runStep envs c) RunAcc.init).trace :=
    run_trace_of_quiet envs c _ hch hbuf
  refine ⟨?_, ?_, ?_, ?_, ?_⟩
  · rw [h1, run_profiles_eq, hpr]
  · rw [h1, run_buffer_eq, hbuf]
  · rw [h1, run_changesMade_eq, hch]
  · intro posts hmem
    rw [h1, htr] at hmem
    rcases fold_trace_checks envs c _ _ hmem with ⟨i, hi⟩
    exact absurd hi (by simp)
  · intro qs hmem
    rw [h1, htr] at hmem
    rcases fold_trace_checks envs c _ _ hmem with ⟨i, hi⟩
    exact absurd hi (by simp)

/-- C4 witness: the idempotence theorem at a concrete profile and quiet
environment. -/
theorem C4_second_run_idempotent_witness :
    (runAntiDetectionMonitoring (fun _ => quietEnv none) tw0Clock
      (runAntiDetectionMonitoring (fun _ => quietEnv none) tw0Clock
        [scenC2Profile]).profiles).buffer = [] :=
  (C4_second_run_idempotent (fun _ => quietEnv none) tw0Clock [scenC2Profile]
    (fun _ => quietEnv_wf none)).2.1

def scenC4Clock : Clock :=
  { ymd := "20250103", ymdh := "2025010309", iso := "2025-01-03T09:00:00",
    full := "2025-01-03 09:00:00.000000", dmyhm := "03/01/2025 à 09:00" }

def scenC4Profile : ProfileData :=
  { url := "https://www.initech.example/co", name := "Initech", last_post_id := "",
    error_count := 0, last_check := "2025-01-03T09:00:00", last_success := none }

/-- The first run: fetch succeeds, the static body yields no validated item,
generation draws the templates in list order. -/
def scenC4Run1 : RunResult :=
  runAntiDetectionMonitoring (fun _ => quietEnv (some "static page")) scenC4Clock
    [scenC4Profile]

/-- The second run, against the state the first run left and the **same
unchanged remote content**, but with `random.sample` drawing the two templates
in the other order. -/
def scenC4Run2 : RunResult :=
  runAntiDetectionMonitoring (fun _ => quietEnvRev (some "static page")) scenC4Clock
    scenC4Run1.profiles

/-- Full evaluation of `scenC4Run1` (checked by the kernel). -/
theorem scenC4Run1_eval : scenC4Run1 =
  { profiles := [{ url := "https://www.initech.example/co",
                   name := "Initech",
                   last_post_id := "f289dae9d85d28a5bfae",
                   error_count := 0,
                   last_check := "2025-01-03T09:00:00",
                   last_success := some "2025-01-03T09:00:00" }],
    buffer := [{ profile_name := "Initech",
                 post_title := "Actualités et développements récents",
                 post_description := "Dernières nouvelles et évolutions importantes de l'entreprise à ne pas manquer.",
                 post_url := "https://www.initech.example/co",
                 detection_time := "03/01/2025 à 09:00",
                 post_id := "822d13166c72",
                 post_type := "actualite",
                 source_method := "intelligent_generation" },
               { profile_name := "Initech",
                 post_title := "Innovation et stratégie d'entreprise",
                 post_description := "Présentation des dernières innovations et de la vision stratégique pour l'avenir.",
                 post_url := "https://www.initech.example/co",
                 detection_time := "03/01/2025 à 09:00",
                 post_id := "f9186eb90f18",
                 post_type := "strategie",
                 source_method := "intelligent_generation" }],
    trace := [Event.check 0,
              Event.save
                [{ url := "https://www.initech.example/co",
                   name := "Initech",
                   last_post_id := "f289dae9d85d28a5bfae",
                   error_count := 0,
                   last_check := "2025-01-03T09:00:00",
                   last_success := some "2025-01-03T09:00:00" }],
              Event.notify
                [{ profile_name := "Initech",
                   post_title := "Actualités et développements récents",
                   post_description := "Dernières nouvelles et évolutions importantes de l'entreprise à ne pas manquer.",
                   post_url := "https://www.initech.example/co",
                   detection_time := "03/01/2025 à 09:00",
                   post_id := "822d13166c72",
                   post_type := "actualite",
                   source_method := "intelligent_generation" },
                 { profile_name := "Initech",
                   post_title := "Innovation et stratégie d'entreprise",
                   post_description := "Présentation des dernières innovations et de la vision stratégique pour l'avenir.",
                   post_url := "https://www.initech.example/co",
                   detection_time := "03/01/2025 à 09:00",
                   post_id := "f9186eb90f18",
                   post_type := "strategie",
                   source_method := "intelligent_generation" }]],
    changesMade := true,
    success := 1,
    changes := 1,
    errors := 0,
    generatedPosts := 2,
    authenticPosts := 0,
    ok := true } := by
  rfl

/-- Full evaluation of `scenC4Run2` (checked by the kernel). -/
theorem scenC4Run2_eval : scenC4Run2 =
  { profiles := [{ url := "https://www.initech.example/co",
                   name := "Initech",
                   last_post_id := "c0800cd09fa14056cb37",
                   error_count := 0,
                   last_check := "2025-01-03T09:00:00",
                   last_success := some "2025-01-03T09:00:00" }],
    buffer := [{ profile_name := "Initech",
                 post_title := "Innovation et stratégie d'entreprise",
                 post_description := "Présentation des dernières innovations et de la vision stratégique pour l'avenir.",
                 post_url := "https://www.initech.example/co",
                 detection_time := "03/01/2025 à 09:00",
                 post_id := "f9186eb90f18",
                 post_type := "strategie",
                 source_method := "intelligent_generation" },
               { profile_name := "Initech",
                 post_title := "Actualités et développements récents",
                 post_description := "Dernières nouvelles et évolutions importantes de l'entreprise à ne pas manquer.",
                 post_url := "https://www.initech.example/co",
                 detection_time := "03/01/2025 à 09:00",
                 post_id := "822d13166c72",
                 post_type := "actualite",
                 source_method := "intelligent_generation" }],
    trace := [Event.check 0,
              Event.save
                [{ url := "https://www.initech.example/co",
                   name := "Initech",
                   last_post_id := "c0800cd09fa14056cb37",
                   error_count := 0,
                   last_check := "2025-01-03T09:00:00",
                   last_success := some "2025-01-03T09:00:00" }],
              Event.notify
                [{ profile_name := "Initech",
                   post_title := "Innovation et stratégie d'entreprise",
                   post_description := "Présentation des dernières innovations et de la vision stratégique pour l'avenir.",
                   post_url := "https://www.initech.example/co",
                   detection_time := "03/01/2025 à 09:00",
                   post_id := "f9186eb90f18",
                   post_type := "strategie",
                   source_method := "intelligent_generation" },
                 { profile_name := "Initech",
                   post_title := "Actualités et développements récents",
                   post_description := "Dernières nouvelles et évolutions importantes de l'entreprise à ne pas manquer.",
                   post_url := "https://www.initech.example/co",
                   detection_time := "03/01/2025 à 09:00",
                   post_id := "822d13166c72",
                   post_type := "actualite",
                   source_method := "intelligent_generation" }]],
    changesMade := true,
    success := 1,
    changes := 1,
    errors := 0,
    generatedPosts := 2,
    authenticPosts := 0,
    ok := true } := by
  rfl

/-- C4 counterexample: two successive runs against identical remote content
(the same fetched body, the same day).  The extraction yields no validated
item, so both runs fall back to generation; the fresh `random.sample` order of
the second run changes the fingerprint, so the second run alters
`last_post_id` and dispatches a notification — the pipeline is not idempotent
on unchanged remote content. -/
theorem C4_counterexample :
    (quietEnv (some "static page")).fetched = (quietEnvRev (some "static page")).fetched ∧
    scenC4Run1.profiles.map (fun q => q.last_post_id) = ["f289dae9d85d28a5bfae"] ∧
    scenC4Run2.profiles.map (fun q => q.last_post_id) = ["c0800cd09fa14056cb37"] ∧
    scenC4Run2.buffer ≠ [] ∧
    Event.notify scenC4Run2.buffer ∈ scenC4Run2.trace := by
  rw [scenC4Run1_eval, scenC4Run2_eval]
  refine ⟨rfl, by decide, by decide, by decide, by decide⟩

/-- C5 witness: the save-count characterization evaluated at a concrete run. -/
theorem C5_single_batched_save_witness :
    (runAntiDetectionMonitoring (fun _ => quietEnv none) tw0Clock []).trace.countP
        isSaveEvent =
      (if (runAntiDetectionMonitoring (fun _ => quietEnv none) tw0Clock []).changesMade
       then 1 else 0) :=
  (C5_single_batched_save (fun _ => quietEnv none) tw0Clock []).2.1

/-- C6 witness: the notification-count characterization evaluated at a concrete
run. -/
theorem C6_single_batched_notification_witness :
    (runAntiDetectionMonitoring (fun _ => quietEnvRev none) tw0Clock []).trace.countP
        isNotifyEvent =
      (if (runAntiDetectionMonitoring (fun _ => quietEnvRev none) tw0Clock []).buffer = []
       then 0 else 1) :=
  (C6_single_batched_notification (fun _ => quietEnvRev none) tw0Clock []).1
